import Mathlib

/-!
Verification of the BratenDreher firmware core (stepper controller, USB-PD
negotiator and command channel) against its natural-language specification.

The C++ sources are shallowly embedded: every stateful method becomes a pure
Lean function from the explicit task state (plus a hardware environment record
standing for the pin, position and clock reads the method performs) to the new
state together with the lists of status updates and notifications it pushes to
the corresponding FreeRTOS queues. Machine floats are modelled as real numbers;
the float-to-uint32 casts of the sources are modelled exactly, as a floor to an
integer step rate. Unsigned 32-bit time subtraction is modelled exactly by
usub32.
-/

noncomputable section

/-- Truncation toward zero, the semantics of a C cast from a floating value to
an integer and the quotient used by fmodf. -/
def truncR (x : ℝ) : ℤ :=
  if 0 ≤ x then ⌊x⌋ else -⌊-x⌋

/-- Model of the C library fmodf: the remainder x - y * trunc (x / y), which
keeps the sign of x. -/
def fmodf (x y : ℝ) : ℝ :=
  x - y * (truncR (x / y) : ℝ)

/-- Unsigned 32-bit subtraction a - b as computed by C on unsigned long
operands of an ESP32 (32-bit wraparound). -/
def usub32 (a b : ℕ) : ℕ :=
  (a % 4294967296 + (4294967296 - b % 4294967296)) % 4294967296

/-- Model of the Arduino constrain macro: constrain(amt, low, high) is low if
amt is below low, high if amt is above high, and amt otherwise. -/
def constrain (amt low high : ℝ) : ℝ :=
  if amt < low then low else if amt > high then high else amt

/-- NotificationType from StatusTypes.h and StepperController.h: warnings and
errors only. -/
inductive NotificationType
  | WARNING
  | ERROR
  deriving DecidableEq

namespace CommandTypes

/-- StepperCommand from CommandTypes.h. -/
inductive StepperCommand
  | SET_SPEED
  | SET_DIRECTION
  | ENABLE
  | DISABLE
  | EMERGENCY_STOP
  | SET_CURRENT
  | SET_ACCELERATION
  | RESET_COUNTERS
  | RESET_STALL_COUNT
  | SET_SPEED_VARIATION
  | SET_SPEED_VARIATION_PHASE
  | ENABLE_SPEED_VARIATION
  | DISABLE_SPEED_VARIATION
  | SET_STALLGUARD_THRESHOLD
  | REQUEST_ALL_STATUS
  deriving DecidableEq

/-- StepperCommandData from CommandTypes.h: a command tag plus one payload.
The C union members are modelled as separate fields; the code only ever reads
the member it wrote for the given tag. -/
structure StepperCommandData where
  command : StepperCommand
  floatValue : ℝ := 0
  boolValue : Bool := false
  intValue : ℤ := 0

/-- PowerDeliveryCommand from CommandTypes.h. -/
inductive PowerDeliveryCommand
  | SET_TARGET_VOLTAGE
  | AUTO_NEGOTIATE_HIGHEST
  | REQUEST_ALL_STATUS
  deriving DecidableEq

/-- PowerDeliveryCommandData from CommandTypes.h. -/
structure PowerDeliveryCommandData where
  command : PowerDeliveryCommand
  floatValue : ℝ := 0
  boolValue : Bool := false
  intValue : ℤ := 0

end CommandTypes

namespace SystemCommand

open CommandTypes

/-- COMMAND_QUEUE_SIZE from SystemCommand.h. -/
def COMMAND_QUEUE_SIZE : ℕ := 20

/-- PD_COMMAND_QUEUE_SIZE from SystemCommand.h. -/
def PD_COMMAND_QUEUE_SIZE : ℕ := 10

/-- The two FreeRTOS queue handles owned by SystemCommand. A handle is none
before begin() has created the queue (xQueueCreate not yet run or failed),
and some q when the queue exists and currently holds the FIFO list q. -/
structure State where
  commandQueue : Option (List StepperCommandData)
  pdCommandQueue : Option (List PowerDeliveryCommandData)

/-- Model of xQueueSend on an existing bounded queue: append if a slot is
free, otherwise report failure (the timeout only delays the failure and is
irrelevant to the final outcome in this single-consumer model). -/
def xQueueSend {α : Type} (cap : ℕ) (q : List α) (item : α) : Bool × List α :=
  if q.length < cap then (true, q ++ [item]) else (false, q)

/-- SystemCommand::sendCommand (SystemCommand.cpp lines 44-62): reject when
the queue was never created, otherwise enqueue with bounded capacity. -/
def sendCommand (s : State) (command : StepperCommandData) : Bool × State :=
  match s.commandQueue with
  | none => (false, s)
  | some q =>
      let r := xQueueSend COMMAND_QUEUE_SIZE q command
      (r.1, { s with commandQueue := some r.2 })

/-- SystemCommand::emergencyStop (SystemCommand.cpp lines 89-95): enqueue an
EMERGENCY_STOP command with zero timeout; false when the queue is null. -/
def emergencyStop (s : State) : Bool × State :=
  match s.commandQueue with
  | none => (false, s)
  | some q =>
      let r := xQueueSend COMMAND_QUEUE_SIZE q { command := StepperCommand.EMERGENCY_STOP }
      (r.1, { s with commandQueue := some r.2 })

/-- SystemCommand::getCommand (SystemCommand.cpp lines 97-111). The middle
component is the value written to the out parameter, none when the out
parameter is left untouched. -/
def getCommand (s : State) : Bool × Option StepperCommandData × State :=
  match s.commandQueue with
  | none => (false, none, s)
  | some [] => (false, none, s)
  | some (c :: rest) => (true, some c, { s with commandQueue := some rest })

/-- SystemCommand::hasCommands (SystemCommand.cpp lines 113-117). -/
def hasCommands (s : State) : Bool :=
  match s.commandQueue with
  | none => false
  | some q => decide (0 < q.length)

/-- SystemCommand::getPendingCommandCount (SystemCommand.cpp lines 119-123). -/
def getPendingCommandCount (s : State) : ℕ :=
  match s.commandQueue with
  | none => 0
  | some q => q.length

/-- SystemCommand::sendPowerDeliveryCommand (SystemCommand.cpp lines
132-150). -/
def sendPowerDeliveryCommand (s : State) (command : PowerDeliveryCommandData) :
    Bool × State :=
  match s.pdCommandQueue with
  | none => (false, s)
  | some q =>
      let r := xQueueSend PD_COMMAND_QUEUE_SIZE q command
      (r.1, { s with pdCommandQueue := some r.2 })

/-- SystemCommand::getPowerDeliveryCommand (SystemCommand.cpp lines
172-186). -/
def getPowerDeliveryCommand (s : State) :
    Bool × Option PowerDeliveryCommandData × State :=
  match s.pdCommandQueue with
  | none => (false, none, s)
  | some [] => (false, none, s)
  | some (c :: rest) => (true, some c, { s with pdCommandQueue := some rest })

/-- SystemCommand::hasPowerDeliveryCommands (SystemCommand.cpp lines
188-192). -/
def hasPowerDeliveryCommands (s : State) : Bool :=
  match s.pdCommandQueue with
  | none => false
  | some q => decide (0 < q.length)

/-- SystemCommand::getPendingPowerDeliveryCommandCount (SystemCommand.cpp
lines 194-198). -/
def getPendingPowerDeliveryCommandCount (s : State) : ℕ :=
  match s.pdCommandQueue with
  | none => 0
  | some q => q.length

end SystemCommand

/-- Payload of a status update (the C union in StatusUpdateData): exactly one
member is meaningful for a given update type. -/
inductive SVal
  | float (x : ℝ)
  | bool (b : Bool)
  | int (i : ℤ)
  | uint (n : ℕ)
  | ulong (n : ℕ)

namespace StatusTypes

/-- StatusUpdateType from StatusTypes.h (the variant used by the power
delivery task and the BLE gateway). -/
inductive StatusUpdateType
  | SPEED_SETPOINT_CHANGED
  | DIRECTION_CHANGED
  | ENABLED_CHANGED
  | CURRENT_CHANGED
  | ACCELERATION_CHANGED
  | SPEED_VARIATION_ENABLED_CHANGED
  | SPEED_VARIATION_STRENGTH_CHANGED
  | SPEED_VARIATION_PHASE_CHANGED
  | SPEED_UPDATE
  | TOTAL_REVOLUTIONS_UPDATE
  | RUNTIME_UPDATE
  | STALL_DETECTED_UPDATE
  | STALL_COUNT_UPDATE
  | TMC2209_STATUS_UPDATE
  | TMC2209_TEMPERATURE_UPDATE
  | PD_NEGOTIATION_STATUS
  | PD_NEGOTIATED_VOLTAGE
  | PD_CURRENT_VOLTAGE
  | PD_POWER_GOOD_STATUS
  deriving DecidableEq

/-- StatusUpdateData from StatusTypes.h. -/
structure StatusUpdateData where
  type : StatusUpdateType
  val : SVal

end StatusTypes

namespace PowerDeliveryTask

open StatusTypes

/-- PDNegotiationState from PowerDeliveryTask.h. -/
inductive PDNegotiationState
  | IDLE
  | NEGOTIATING
  | SUCCESS
  | FAILED
  | AUTO_NEGOTIATING
  deriving DecidableEq

/-- Numeric value of a PDNegotiationState as cast by static_cast of int
(declaration order in PowerDeliveryTask.h). -/
def stateCode : PDNegotiationState → ℤ
  | PDNegotiationState.IDLE => 0
  | PDNegotiationState.NEGOTIATING => 1
  | PDNegotiationState.SUCCESS => 2
  | PDNegotiationState.FAILED => 3
  | PDNegotiationState.AUTO_NEGOTIATING => 4

/-- PD_NEGOTIATION_TIMEOUT from PowerDeliveryTask.h, in milliseconds. -/
def PD_NEGOTIATION_TIMEOUT : ℕ := 2000

/-- PD_POWER_GOOD_DEBOUNCE from PowerDeliveryTask.h, in milliseconds. -/
def PD_POWER_GOOD_DEBOUNCE : ℕ := 100

/-- The three CFG output pins of the CH224K trigger chip; true stands for a
HIGH digitalWrite. -/
structure CfgLines where
  cfg1 : Bool
  cfg2 : Bool
  cfg3 : Bool
  deriving DecidableEq

/-- The CFG pin pattern written by pdConfigureVoltage (PowerDeliveryTask.cpp
lines 66-115) for a requested voltage; any voltage outside the supported set
falls into the default branch, which writes the 12 V pattern. -/
def cfgFor (voltage : ℤ) : CfgLines :=
  if voltage = 5 then ⟨true, false, false⟩
  else if voltage = 9 then ⟨false, false, false⟩
  else if voltage = 12 then ⟨false, false, true⟩
  else if voltage = 15 then ⟨false, true, true⟩
  else if voltage = 20 then ⟨false, true, false⟩
  else ⟨false, false, true⟩

/-- The mutable fields of PowerDeliveryTask (PowerDeliveryTask.h). The C int
auto-negotiation index is modelled as a natural number: the code only ever
writes 0 to it or increments it. -/
structure PDState where
  targetVoltage : ℤ
  negotiatedVoltage : ℤ
  powerGoodState : Bool
  lastPowerGoodState : Bool
  powerGoodDebounceTime : ℕ
  negotiationState : PDNegotiationState
  negotiationStartTime : ℕ
  isAutoNegotiating : Bool
  autoNegotiationVoltageIndex : ℕ
  autoNegotiationHighestVoltage : ℤ
  isInitialized : Bool
  cfgLines : CfgLines

/-- The hardware reads a power-delivery step performs: the raw power-good pin
(true when digitalRead(PG_PIN) is LOW, the asserted level), the millis()
clock, and the ADC bus-voltage measurement already scaled to volts. -/
structure PDEnv where
  pgAsserted : Bool
  currentTime : ℕ
  measuredVoltage : ℝ

/-- PowerDeliveryTask::pdInvalidatePowerGood (PowerDeliveryTask.cpp lines
143-148). -/
def pdInvalidatePowerGood (s : PDState) (currentTime : ℕ) : PDState :=
  { s with powerGoodState := false, lastPowerGoodState := false,
           powerGoodDebounceTime := currentTime }

/-- PowerDeliveryTask::pdConfigureVoltage (PowerDeliveryTask.cpp lines
66-115): write the CFG pin pattern for the voltage, then invalidate the
debounced power-good state. -/
def pdConfigureVoltage (s : PDState) (voltage : ℤ) (currentTime : ℕ) : PDState :=
  pdInvalidatePowerGood { s with cfgLines := cfgFor voltage } currentTime

/-- PowerDeliveryTask::pdCheckPowerGood (PowerDeliveryTask.cpp lines
122-141): debounce the raw pin over PD_POWER_GOOD_DEBOUNCE milliseconds. The
function returns the updated powerGoodState field; the source guards the
final assignment with an inequality test that only gates a debug print, the
stored result is the same. -/
def pdCheckPowerGood (s : PDState) (env : PDEnv) : PDState :=
  let s1 := if env.pgAsserted ≠ s.lastPowerGoodState then
      { s with powerGoodDebounceTime := env.currentTime,
               lastPowerGoodState := env.pgAsserted }
    else s
  if PD_POWER_GOOD_DEBOUNCE ≤ usub32 env.currentTime s1.powerGoodDebounceTime then
    { s1 with powerGoodState := env.pgAsserted }
  else s1

/-- PowerDeliveryTask::publishNegotiationStatus (PowerDeliveryTask.cpp lines
184-187). -/
def publishNegotiationStatus (s : PDState) : List StatusUpdateData :=
  [⟨StatusUpdateType.PD_NEGOTIATION_STATUS, SVal.int (stateCode s.negotiationState)⟩,
   ⟨StatusUpdateType.PD_NEGOTIATED_VOLTAGE, SVal.float (s.negotiatedVoltage : ℝ)⟩]

/-- PowerDeliveryTask::publishVoltageStatus (PowerDeliveryTask.cpp lines
193-195). -/
def publishVoltageStatus (env : PDEnv) : List StatusUpdateData :=
  [⟨StatusUpdateType.PD_CURRENT_VOLTAGE, SVal.float env.measuredVoltage⟩]

/-- PowerDeliveryTask::applyNegotiationVoltage (PowerDeliveryTask.cpp lines
154-178): guard on initialization and the raw voltage range, then reset the
negotiation to NEGOTIATING for the target voltage and reconfigure the CFG
lines. -/
def applyNegotiationVoltage (s : PDState) (voltage : ℤ) (env : PDEnv) :
    PDState × List StatusUpdateData :=
  if s.isInitialized = false then (s, [])
  else if voltage < 5 ∨ voltage > 20 then (s, [])
  else
    let s1 := { s with negotiationState := PDNegotiationState.NEGOTIATING,
                       negotiationStartTime := env.currentTime,
                       targetVoltage := voltage,
                       negotiatedVoltage := 0 }
    let s2 := pdConfigureVoltage s1 voltage env.currentTime
    (s2, publishNegotiationStatus s2)

/-- PowerDeliveryTask::setTargetVoltageInternal (PowerDeliveryTask.cpp lines
333-350): the validation is a range test 5 <= v <= 20, not a membership test
in the supported voltage set. On rejection the current status is republished
and an ERROR notification is sent; otherwise the negotiation is applied. -/
def setTargetVoltageInternal (s : PDState) (voltage : ℤ) (env : PDEnv) :
    PDState × List StatusUpdateData × List NotificationType :=
  if voltage < 5 ∨ voltage > 20 then
    (s, publishNegotiationStatus s ++ publishVoltageStatus env,
     [NotificationType.ERROR])
  else
    let r := applyNegotiationVoltage s voltage env
    (r.1, r.2, [])

/-- PowerDeliveryTask::autoNegotiationVoltages (PowerDeliveryTask.cpp lines
3-4): the candidate voltages in descending order. -/
def autoNegotiationVoltages : List ℤ := [20, 15, 12, 9, 5]

/-- PowerDeliveryTask::autoNegotiateHighestVoltageInternal
(PowerDeliveryTask.cpp lines 352-379). -/
def autoNegotiateHighestVoltageInternal (s : PDState) (env : PDEnv) :
    PDState × List StatusUpdateData :=
  if s.isInitialized = false then (s, [])
  else
    let startVoltage := autoNegotiationVoltages.getD 0 0
    let s1 := { s with isAutoNegotiating := true,
                       autoNegotiationVoltageIndex := 0,
                       autoNegotiationHighestVoltage := 0,
                       negotiationState := PDNegotiationState.AUTO_NEGOTIATING,
                       negotiationStartTime := env.currentTime,
                       negotiatedVoltage := 0,
                       targetVoltage := startVoltage }
    let s2 := pdConfigureVoltage s1 startVoltage env.currentTime
    (s2, publishNegotiationStatus s2)

/-- PowerDeliveryTask::handleSingleVoltageNegotiation (PowerDeliveryTask.cpp
lines 226-251). -/
def handleSingleVoltageNegotiation (s : PDState) (env : PDEnv) :
    PDState × List StatusUpdateData :=
  let s1 := pdCheckPowerGood s env
  if s1.powerGoodState then
    let s2 := { s1 with negotiationState := PDNegotiationState.SUCCESS,
                        negotiatedVoltage := s1.targetVoltage }
    (s2, publishNegotiationStatus s2 ++ publishVoltageStatus env)
  else if PD_NEGOTIATION_TIMEOUT ≤ usub32 env.currentTime s1.negotiationStartTime then
    let s2 := { s1 with negotiationState := PDNegotiationState.FAILED,
                        negotiatedVoltage := 0 }
    (s2, publishNegotiationStatus s2 ++ publishVoltageStatus env)
  else (s1, [])

/-- PowerDeliveryTask::handleAutoNegotiation (PowerDeliveryTask.cpp lines
253-302). -/
def handleAutoNegotiation (s : PDState) (env : PDEnv) :
    PDState × List StatusUpdateData :=
  let s1 := pdCheckPowerGood s env
  if s1.powerGoodState then
    let v := autoNegotiationVoltages.getD s1.autoNegotiationVoltageIndex 0
    let s2 := { s1 with autoNegotiationHighestVoltage := v,
                        negotiationState := PDNegotiationState.SUCCESS,
                        negotiatedVoltage := v,
                        targetVoltage := v,
                        isAutoNegotiating := false }
    (s2, publishNegotiationStatus s2 ++ publishVoltageStatus env)
  else if PD_NEGOTIATION_TIMEOUT ≤ usub32 env.currentTime s1.negotiationStartTime then
    let idx := s1.autoNegotiationVoltageIndex + 1
    if 5 ≤ idx then
      let s2 := { s1 with autoNegotiationVoltageIndex := idx,
                          negotiationState := PDNegotiationState.FAILED,
                          negotiatedVoltage := 0,
                          isAutoNegotiating := false }
      (s2, publishNegotiationStatus s2 ++ publishVoltageStatus env)
    else
      let nextVoltage := autoNegotiationVoltages.getD idx 0
      let s2 := pdConfigureVoltage
        { s1 with autoNegotiationVoltageIndex := idx } nextVoltage env.currentTime
      let s3 := { s2 with negotiationStartTime := env.currentTime }
      (s3, publishNegotiationStatus s3)
  else (s1, [])

/-- PowerDeliveryTask::updateNegotiationState (PowerDeliveryTask.cpp lines
207-224): one tick of the negotiation state machine. -/
def updateNegotiationState (s : PDState) (env : PDEnv) :
    PDState × List StatusUpdateData :=
  match s.negotiationState with
  | PDNegotiationState.NEGOTIATING => handleSingleVoltageNegotiation s env
  | PDNegotiationState.AUTO_NEGOTIATING => handleAutoNegotiation s env
  | _ => (s, [])

/-- A representative initialized idle state, used for concrete witnesses and
counterexamples. -/
def pdTestState : PDState :=
  { targetVoltage := 12, negotiatedVoltage := 0, powerGoodState := false,
    lastPowerGoodState := false, powerGoodDebounceTime := 0,
    negotiationState := PDNegotiationState.IDLE, negotiationStartTime := 0,
    isAutoNegotiating := false, autoNegotiationVoltageIndex := 0,
    autoNegotiationHighestVoltage := 0, isInitialized := true,
    cfgLines := cfgFor 12 }

/-- A concrete state in the middle of a single-voltage negotiation for 12 V,
with the raw power-good pin already stable, used for witnesses. -/
def pdNegotiatingTestState : PDState :=
  { pdTestState with negotiationState := PDNegotiationState.NEGOTIATING,
                     negotiationStartTime := 100,
                     lastPowerGoodState := true }

/-- A concrete state in the middle of an auto-negotiation at the first
candidate voltage (20 V), used for witnesses. -/
def pdAutoTestState : PDState :=
  { pdTestState with negotiationState := PDNegotiationState.AUTO_NEGOTIATING,
                     targetVoltage := 20,
                     negotiationStartTime := 100,
                     isAutoNegotiating := true,
                     cfgLines := cfgFor 20 }

end PowerDeliveryTask

/-- Conversion of a C int to uint32_t (reduction modulo 2^32), used where a
command int payload feeds a uint32 parameter. -/
def intToUint32 (i : ℤ) : ℕ :=
  (i % 4294967296).toNat

namespace StepperController

/-- MIN_SPEED_RPM from StepperController.h. -/
def MIN_SPEED_RPM : ℝ := 0.1

/-- MAX_SPEED_RPM from StepperController.h. -/
def MAX_SPEED_RPM : ℝ := 30

/-- STEPS_PER_REVOLUTION from StepperController.h (NEMA 17). -/
def STEPS_PER_REVOLUTION : ℕ := 200

/-- The 1:10 gear reduction constant of StepperController.h. -/
def GEAR_REDUCTION : ℕ := 10

/-- MICRO_STEPS from StepperController.h. -/
def MICRO_STEPS : ℕ := 16

/-- TOTAL_STEPS_PER_REVOLUTION from StepperController.h. -/
def TOTAL_STEPS_PER_REVOLUTION : ℕ := STEPS_PER_REVOLUTION * GEAR_REDUCTION

/-- The float literal 6.28318530718f the stepper sources use for a full turn
in radians. -/
def TWO_PI_F : ℝ := 6.28318530718

/-- StatusUpdateType from StepperController.h (the stepper task compiles
against its own variant of the status enum). -/
inductive StatusUpdateType
  | SPEED_CHANGED
  | DIRECTION_CHANGED
  | ENABLED_CHANGED
  | CURRENT_CHANGED
  | ACCELERATION_CHANGED
  | SPEED_VARIATION_ENABLED_CHANGED
  | SPEED_VARIATION_STRENGTH_CHANGED
  | SPEED_VARIATION_PHASE_CHANGED
  | TOTAL_REVOLUTIONS_UPDATE
  | RUNTIME_UPDATE
  | IS_RUNNING_UPDATE
  | STALL_DETECTED_UPDATE
  | STALL_COUNT_UPDATE
  | TMC2209_STATUS_UPDATE
  | CURRENT_VARIABLE_SPEED_UPDATE
  deriving DecidableEq

/-- StatusUpdateData from StepperController.h (the timestamp field is not
modelled; it never influences control flow). -/
structure StatusUpdateData where
  type : StatusUpdateType
  val : SVal

/-- NotificationData from StepperController.h; the human-readable message
text is abstracted away, keeping the command id and the severity. -/
structure NotificationData where
  commandId : ℕ
  type : NotificationType

/-- StepperCommand from StepperController.h. -/
inductive StepperCommand
  | SET_SPEED
  | SET_DIRECTION
  | ENABLE
  | DISABLE
  | EMERGENCY_STOP
  | SET_CURRENT
  | SET_ACCELERATION
  | RESET_COUNTERS
  | RESET_STALL_COUNT
  | SET_SPEED_VARIATION
  | SET_SPEED_VARIATION_PHASE
  | ENABLE_SPEED_VARIATION
  | DISABLE_SPEED_VARIATION
  | REQUEST_ALL_STATUS
  deriving DecidableEq

/-- StepperCommandData from StepperController.h. -/
structure StepperCommandData where
  command : StepperCommand
  floatValue : ℝ := 0
  boolValue : Bool := false
  intValue : ℤ := 0
  commandId : ℕ := 0

/-- The mutable fields of StepperController (StepperController.h) that the
control logic reads or writes. -/
structure MotorState where
  currentSpeedRPM : ℝ
  runCurrent : ℤ
  currentAcceleration : ℕ
  speedVariationEnabled : Bool
  speedVariationStrength : ℝ
  speedVariationPhase : ℝ
  speedVariationStartPosition : ℤ
  speedVariationK : ℝ
  speedVariationK0 : ℝ
  motorEnabled : Bool
  clockwise : Bool
  startTime : ℕ
  totalSteps : ℕ
  isFirstStart : Bool
  tmc2209Initialized : Bool
  stallDetected : Bool
  lastStallTime : ℕ
  stallCount : ℕ

/-- The hardware reads a stepper operation can perform: whether the
FastAccelStepper object exists, the current step position, whether the motor
is stepping, the result of runForward/runBackward, the raw DIAG (stall) pin,
the millis() clock and whether the TMC2209 driver answers on serial. -/
structure MotorEnv where
  hasStepper : Bool
  currentPosition : ℤ
  isRunning : Bool
  moveOk : Bool
  diagPinHigh : Bool
  currentTime : ℕ
  tmcCommunicating : Bool

/-- Result of one command handler: the new state, the status updates pushed
to the status queue and the notifications pushed to the notification queue,
in source order. -/
structure MotorOut where
  state : MotorState
  events : List StatusUpdateData
  notifs : List NotificationData

/-- StepperController::rpmToStepsPerSecond (StepperController.cpp lines
299-308): (rpm * GEAR_RATIO * STEPS_PER_REVOLUTION * MICRO_STEPS) / 60,
cast float-to-uint32 (truncation; every caller passes a nonnegative rpm). -/
def rpmToStepsPerSecond (rpm : ℝ) : ℕ :=
  (⌊rpm * (GEAR_REDUCTION : ℝ) * (STEPS_PER_REVOLUTION : ℝ) * (MICRO_STEPS : ℝ) / 60⌋).toNat

/-- The canonical RPM value recomputed from an integer step rate, the
expression stored by StepperController::applyStepperSpeed
(StepperController.cpp line 11). -/
def stepsToRPM (stepsPerSecond : ℕ) : ℝ :=
  (stepsPerSecond : ℝ) * 60 /
    ((GEAR_REDUCTION : ℝ) * (STEPS_PER_REVOLUTION : ℝ) * (MICRO_STEPS : ℝ))

/-- StepperController::applyStepperSpeed (StepperController.cpp lines 5-16):
recompute the canonical RPM from the integer step rate, store it and publish
SPEED_CHANGED; a missing stepper object only logs. -/
def applyStepperSpeed (env : MotorEnv) (s : MotorState) (stepsPerSecond : ℕ) :
    MotorState × List StatusUpdateData :=
  if env.hasStepper = false then (s, [])
  else
    let s1 := { s with currentSpeedRPM := stepsToRPM stepsPerSecond }
    (s1, [⟨StatusUpdateType.SPEED_CHANGED, SVal.float s1.currentSpeedRPM⟩])

/-- StepperController::applyStepperAcceleration (StepperController.cpp lines
18-27). -/
def applyStepperAcceleration (env : MotorEnv) (s : MotorState)
    (accelerationStepsPerSec2 : ℕ) : MotorState × List StatusUpdateData :=
  if env.hasStepper = false then (s, [])
  else
    ({ s with currentAcceleration := accelerationStepsPerSec2 },
     [⟨StatusUpdateType.ACCELERATION_CHANGED, SVal.uint accelerationStepsPerSec2⟩])

/-- StepperController::getPositionAngle (StepperController.cpp lines
1116-1127). -/
def getPositionAngle (env : MotorEnv) (s : MotorState) : ℝ :=
  if env.hasStepper = false then 0
  else
    TWO_PI_F * ((env.currentPosition - s.speedVariationStartPosition : ℤ) : ℝ) /
      ((STEPS_PER_REVOLUTION * MICRO_STEPS * GEAR_REDUCTION : ℕ) : ℝ)

/-- StepperController::calculateVariableSpeed (StepperController.cpp lines
1096-1114): the sinusoidal speed law w0 * k0 / (1 + k cos a) at the current
position angle plus phase, clamped to the RPM range. -/
def calculateVariableSpeed (env : MotorEnv) (s : MotorState) : ℝ :=
  if s.speedVariationEnabled = false ∨ s.speedVariationStrength = 0 then
    s.currentSpeedRPM
  else
    let angle := getPositionAngle env s + s.speedVariationPhase
    let normalizedAngle := fmodf (angle + (if angle < 0 then TWO_PI_F else 0)) TWO_PI_F
    let denominator := 1 + s.speedVariationK * Real.cos normalizedAngle
    constrain (s.currentSpeedRPM * s.speedVariationK0 / denominator)
      MIN_SPEED_RPM MAX_SPEED_RPM

/-- StepperController::updateSpeedVariationParameters (StepperController.cpp
lines 1289-1297): k = strength * 0.6 and k0 = sqrt(1 - k^2). -/
def updateSpeedVariationParameters (s : MotorState) : MotorState :=
  let k := s.speedVariationStrength * 0.6
  { s with speedVariationK := k, speedVariationK0 := Real.sqrt (1 - k * k) }

/-- StepperController::calculateMaxAllowedBaseSpeed (StepperController.cpp
lines 1299-1315). -/
def calculateMaxAllowedBaseSpeed (s : MotorState) : ℝ :=
  if s.speedVariationStrength = 0 then MAX_SPEED_RPM
  else
    max (MAX_SPEED_RPM * (1 - s.speedVariationK) / s.speedVariationK0) MIN_SPEED_RPM

/-- StepperController::calculateRequiredAccelerationForVariableSpeed
(StepperController.cpp lines 1129-1165). -/
def calculateRequiredAccelerationForVariableSpeed (s : MotorState) : ℕ :=
  if s.speedVariationEnabled = false ∨ s.speedVariationStrength = 0 then 0
  else
    let minSpeed := constrain
      (s.currentSpeedRPM * (s.speedVariationK0 / (1 + s.speedVariationK)))
      MIN_SPEED_RPM MAX_SPEED_RPM
    let maxSpeed := constrain
      (s.currentSpeedRPM * (s.speedVariationK0 / (1 - s.speedVariationK)))
      MIN_SPEED_RPM MAX_SPEED_RPM
    let maxSpeedChangeSteps := rpmToStepsPerSecond (maxSpeed - minSpeed)
    let halfRotationTime := 30 / s.currentSpeedRPM
    (⌊((maxSpeedChangeSteps : ℝ) / halfRotationTime) * 1.5⌋).toNat

/-- StepperController::updateAccelerationForVariableSpeed
(StepperController.cpp lines 1167-1184): only ever raises the acceleration,
and only while variation is enabled. -/
def updateAccelerationForVariableSpeed (env : MotorEnv) (s : MotorState) :
    MotorState × List StatusUpdateData :=
  if env.hasStepper = false ∨ s.speedVariationEnabled = false then (s, [])
  else
    let requiredAcceleration := calculateRequiredAccelerationForVariableSpeed s
    if requiredAcceleration = 0 then (s, [])
    else if requiredAcceleration > s.currentAcceleration then
      applyStepperAcceleration env s requiredAcceleration
    else (s, [])

/-- StepperController::updateSpeedForVariableSpeed (StepperController.cpp
lines 1199-1214): reduce the base speed when it exceeds the modulation
cap. -/
def updateSpeedForVariableSpeed (env : MotorEnv) (s : MotorState) :
    MotorState × List StatusUpdateData :=
  if env.hasStepper = false then (s, [])
  else if s.currentSpeedRPM > calculateMaxAllowedBaseSpeed s then
    applyStepperSpeed env s (rpmToStepsPerSecond (calculateMaxAllowedBaseSpeed s))
  else (s, [])

/-- StepperController::updateMotorSpeed (StepperController.cpp lines
1186-1197): the periodic variable-speed tick. -/
def updateMotorSpeed (env : MotorEnv) (s : MotorState) :
    MotorState × List StatusUpdateData :=
  if env.hasStepper = false ∨ s.motorEnabled = false ∨
      s.speedVariationEnabled = false then (s, [])
  else applyStepperSpeed env s (rpmToStepsPerSecond (calculateVariableSpeed env s))

/-- StepperController::setSpeedInternal (StepperController.cpp lines
536-595): out-of-range requests are rejected with an ERROR notification and
a republish of the unchanged speed; in-range requests are capped at the
modulation limit when variation is active (WARNING when capped and the
command came from outside initialization). -/
def setSpeedInternal (env : MotorEnv) (s : MotorState) (rpm : ℝ)
    (commandId : ℕ) : MotorOut :=
  if rpm < MIN_SPEED_RPM ∨ rpm > MAX_SPEED_RPM then
    ⟨s, [⟨StatusUpdateType.SPEED_CHANGED, SVal.float s.currentSpeedRPM⟩],
     [⟨commandId, NotificationType.ERROR⟩]⟩
  else
    let speedWasAdjusted := s.speedVariationEnabled = true ∧
      s.speedVariationStrength > 0 ∧ rpm > calculateMaxAllowedBaseSpeed s
    let rpm2 := if speedWasAdjusted then calculateMaxAllowedBaseSpeed s else rpm
    if env.hasStepper = false then
      ⟨s, [⟨StatusUpdateType.SPEED_CHANGED, SVal.float s.currentSpeedRPM⟩],
       [⟨commandId, NotificationType.ERROR⟩]⟩
    else
      let r1 := applyStepperSpeed env s (rpmToStepsPerSecond rpm2)
      let r2 := if r1.1.speedVariationEnabled = true then
          updateAccelerationForVariableSpeed env r1.1
        else (r1.1, [])
      ⟨r2.1, r1.2 ++ r2.2 ++ [⟨StatusUpdateType.SPEED_CHANGED, SVal.float rpm2⟩],
       if speedWasAdjusted ∧ commandId ≠ 0 then
         [⟨commandId, NotificationType.WARNING⟩]
       else []⟩

/-- StepperController::setDirectionInternal (StepperController.cpp lines
597-610). -/
def setDirectionInternal (s : MotorState) (cw : Bool) (commandId : ℕ) :
    MotorOut :=
  ⟨{ s with clockwise := cw },
   [⟨StatusUpdateType.DIRECTION_CHANGED, SVal.bool cw⟩], []⟩

/-- StepperController::enableInternal (StepperController.cpp lines
612-652). -/
def enableInternal (env : MotorEnv) (s : MotorState) (commandId : ℕ) :
    MotorOut :=
  if env.hasStepper = false then
    ⟨s, [⟨StatusUpdateType.ENABLED_CHANGED, SVal.bool s.motorEnabled⟩],
     [⟨commandId, NotificationType.ERROR⟩]⟩
  else
    let s1 := { s with motorEnabled := true }
    if env.moveOk = false then
      ⟨{ s1 with motorEnabled := false },
       [⟨StatusUpdateType.ENABLED_CHANGED, SVal.bool false⟩],
       [⟨commandId, NotificationType.ERROR⟩]⟩
    else
      let s2 := if s1.isFirstStart = true then
          { s1 with startTime := env.currentTime, isFirstStart := false }
        else s1
      ⟨s2, [⟨StatusUpdateType.ENABLED_CHANGED, SVal.bool true⟩], []⟩

/-- StepperController::disableInternal (StepperController.cpp lines
654-669). -/
def disableInternal (env : MotorEnv) (s : MotorState) (commandId : ℕ) :
    MotorOut :=
  ⟨{ s with motorEnabled := false },
   [⟨StatusUpdateType.ENABLED_CHANGED, SVal.bool false⟩], []⟩

/-- StepperController::emergencyStopInternal (StepperController.cpp lines
671-686): same state effect as disable, the difference is in the hardware
stop call (force stop at current position, no deceleration ramp). -/
def emergencyStopInternal (env : MotorEnv) (s : MotorState) (commandId : ℕ) :
    MotorOut :=
  ⟨{ s with motorEnabled := false },
   [⟨StatusUpdateType.ENABLED_CHANGED, SVal.bool false⟩], []⟩

/-- StepperController::setRunCurrentInternal (StepperController.cpp lines
688-725). -/
def setRunCurrentInternal (env : MotorEnv) (s : MotorState) (current : ℤ)
    (commandId : ℕ) : MotorOut :=
  if current < 10 ∨ current > 100 then
    ⟨s, [⟨StatusUpdateType.CURRENT_CHANGED, SVal.int s.runCurrent⟩],
     [⟨commandId, NotificationType.ERROR⟩]⟩
  else
    let ev0 := if env.tmcCommunicating ≠ s.tmc2209Initialized then
        [⟨StatusUpdateType.TMC2209_STATUS_UPDATE, SVal.bool env.tmcCommunicating⟩]
      else []
    let s2 := { s with runCurrent := current,
                       tmc2209Initialized := env.tmcCommunicating }
    if s2.tmc2209Initialized = false then
      ⟨s2, ev0 ++ [⟨StatusUpdateType.CURRENT_CHANGED, SVal.int current⟩],
       [⟨commandId, NotificationType.ERROR⟩]⟩
    else
      ⟨s2, ev0 ++ [⟨StatusUpdateType.CURRENT_CHANGED, SVal.int current⟩], []⟩

/-- StepperController::setAccelerationInternal (StepperController.cpp lines
727-767): clamp the uint32 request into 100..100000, apply it, publish the
clamped value and warn when the request was adjusted. No modulation floor is
consulted here. -/
def setAccelerationInternal (env : MotorEnv) (s : MotorState)
    (accelerationStepsPerSec2 : ℕ) (commandId : ℕ) : MotorOut :=
  if env.hasStepper = false then
    ⟨s, [⟨StatusUpdateType.ACCELERATION_CHANGED, SVal.uint s.currentAcceleration⟩],
     [⟨commandId, NotificationType.ERROR⟩]⟩
  else
    let accelWasAdjusted := accelerationStepsPerSec2 < 100 ∨
      accelerationStepsPerSec2 > 100000
    let a2 := if accelerationStepsPerSec2 < 100 then 100
      else if accelerationStepsPerSec2 > 100000 then 100000
      else accelerationStepsPerSec2
    let r1 := applyStepperAcceleration env s a2
    ⟨r1.1, r1.2 ++ [⟨StatusUpdateType.ACCELERATION_CHANGED, SVal.uint a2⟩],
     if accelWasAdjusted ∧ commandId ≠ 0 then
       [⟨commandId, NotificationType.WARNING⟩]
     else []⟩

/-- StepperController::resetCountersInternal (StepperController.cpp lines
513-524); the hardware position reset is an environment effect. -/
def resetCountersInternal (env : MotorEnv) (s : MotorState) (commandId : ℕ) :
    MotorOut :=
  ⟨{ s with totalSteps := 0, startTime := env.currentTime,
            isFirstStart := false }, [], []⟩

/-- StepperController::resetStallCountInternal (StepperController.cpp lines
526-534). -/
def resetStallCountInternal (s : MotorState) (commandId : ℕ) : MotorOut :=
  ⟨{ s with stallCount := 0, stallDetected := false, lastStallTime := 0 },
   [⟨StatusUpdateType.STALL_COUNT_UPDATE, SVal.int 0⟩], []⟩

/-- StepperController::setSpeedVariationInternal (StepperController.cpp lines
944-979). -/
def setSpeedVariationInternal (env : MotorEnv) (s : MotorState)
    (strength : ℝ) (commandId : ℕ) : MotorOut :=
  if strength < 0 ∨ strength > 1 then
    ⟨s, [⟨StatusUpdateType.SPEED_VARIATION_STRENGTH_CHANGED,
          SVal.float s.speedVariationStrength⟩],
     [⟨commandId, NotificationType.ERROR⟩]⟩
  else if env.hasStepper = false then
    ⟨s, [⟨StatusUpdateType.SPEED_VARIATION_STRENGTH_CHANGED,
          SVal.float s.speedVariationStrength⟩],
     [⟨commandId, NotificationType.ERROR⟩]⟩
  else
    let s1 := updateSpeedVariationParameters
      { s with speedVariationStrength := strength }
    let r2 := updateSpeedForVariableSpeed env s1
    let r3 := updateAccelerationForVariableSpeed env r2.1
    ⟨r3.1, r2.2 ++ r3.2 ++
      [⟨StatusUpdateType.SPEED_VARIATION_STRENGTH_CHANGED, SVal.float strength⟩],
     []⟩

/-- StepperController::setSpeedVariationPhaseInternal (StepperController.cpp
lines 981-991): normalize via fmodf after adding one turn to a negative
input. -/
def setSpeedVariationPhaseInternal (s : MotorState) (phase : ℝ)
    (commandId : ℕ) : MotorOut :=
  let p := fmodf (phase + (if phase < 0 then TWO_PI_F else 0)) TWO_PI_F
  ⟨{ s with speedVariationPhase := p },
   [⟨StatusUpdateType.SPEED_VARIATION_PHASE_CHANGED, SVal.float p⟩], []⟩

/-- StepperController::enableSpeedVariationInternal (StepperController.cpp
lines 993-1024). -/
def enableSpeedVariationInternal (env : MotorEnv) (s : MotorState)
    (commandId : ℕ) : MotorOut :=
  if env.hasStepper = false then
    ⟨s, [⟨StatusUpdateType.SPEED_VARIATION_ENABLED_CHANGED,
          SVal.bool s.speedVariationEnabled⟩],
     [⟨commandId, NotificationType.ERROR⟩]⟩
  else
    let r1 := updateSpeedForVariableSpeed env s
    let s2 := { r1.1 with speedVariationStartPosition := env.currentPosition,
                          speedVariationEnabled := true,
                          speedVariationPhase := 0 }
    let r3 := updateAccelerationForVariableSpeed env s2
    ⟨r3.1, r1.2 ++ r3.2 ++
      [⟨StatusUpdateType.SPEED_VARIATION_ENABLED_CHANGED, SVal.bool true⟩,
       ⟨StatusUpdateType.SPEED_VARIATION_PHASE_CHANGED,
        SVal.float r3.1.speedVariationPhase⟩,
       ⟨StatusUpdateType.SPEED_VARIATION_STRENGTH_CHANGED,
        SVal.float r3.1.speedVariationStrength⟩], []⟩

/-- StepperController::disableSpeedVariationInternal (StepperController.cpp
lines 1026-1046): revert to the constant base speed. -/
def disableSpeedVariationInternal (env : MotorEnv) (s : MotorState)
    (commandId : ℕ) : MotorOut :=
  if env.hasStepper = false then
    ⟨s, [⟨StatusUpdateType.SPEED_VARIATION_ENABLED_CHANGED,
          SVal.bool s.speedVariationEnabled⟩],
     [⟨commandId, NotificationType.ERROR⟩]⟩
  else
    let s1 := { s with speedVariationEnabled := false }
    let r2 := applyStepperSpeed env s1 (rpmToStepsPerSecond s1.currentSpeedRPM)
    ⟨r2.1, r2.2 ++
      [⟨StatusUpdateType.SPEED_VARIATION_ENABLED_CHANGED, SVal.bool false⟩], []⟩

/-- StepperController::requestAllStatusInternal (StepperController.cpp lines
1048-1084). -/
def requestAllStatusInternal (env : MotorEnv) (s : MotorState)
    (commandId : ℕ) : MotorOut :=
  ⟨s,
   [⟨StatusUpdateType.SPEED_CHANGED, SVal.float s.currentSpeedRPM⟩,
    ⟨StatusUpdateType.DIRECTION_CHANGED, SVal.bool s.clockwise⟩,
    ⟨StatusUpdateType.ENABLED_CHANGED, SVal.bool s.motorEnabled⟩,
    ⟨StatusUpdateType.CURRENT_CHANGED, SVal.int s.runCurrent⟩,
    ⟨StatusUpdateType.ACCELERATION_CHANGED, SVal.uint s.currentAcceleration⟩,
    ⟨StatusUpdateType.SPEED_VARIATION_ENABLED_CHANGED,
     SVal.bool s.speedVariationEnabled⟩,
    ⟨StatusUpdateType.SPEED_VARIATION_STRENGTH_CHANGED,
     SVal.float s.speedVariationStrength⟩,
    ⟨StatusUpdateType.SPEED_VARIATION_PHASE_CHANGED,
     SVal.float s.speedVariationPhase⟩] ++
   (if s.speedVariationEnabled = true then
      [⟨StatusUpdateType.CURRENT_VARIABLE_SPEED_UPDATE,
        SVal.float (calculateVariableSpeed env s)⟩]
    else []) ++
   [⟨StatusUpdateType.TOTAL_REVOLUTIONS_UPDATE,
     SVal.float ((s.totalSteps / TOTAL_STEPS_PER_REVOLUTION : ℕ) : ℝ)⟩,
    ⟨StatusUpdateType.RUNTIME_UPDATE,
     SVal.ulong (if s.isFirstStart = true then 0
                 else usub32 env.currentTime s.startTime / 1000)⟩,
    ⟨StatusUpdateType.IS_RUNNING_UPDATE,
     SVal.bool (if env.hasStepper = true then env.isRunning else false)⟩,
    ⟨StatusUpdateType.TMC2209_STATUS_UPDATE, SVal.bool s.tmc2209Initialized⟩,
    ⟨StatusUpdateType.STALL_DETECTED_UPDATE, SVal.bool s.stallDetected⟩,
    ⟨StatusUpdateType.STALL_COUNT_UPDATE, SVal.int (s.stallCount : ℤ)⟩],
   []⟩

/-- StepperController::publishPeriodicStatusUpdates (StepperController.cpp
lines 382-451): the periodic status batch including the stall edge logic.
The source sends no notification from this function, only status updates. -/
def publishPeriodicStatusUpdates (env : MotorEnv) (s : MotorState) : MotorOut :=
  let motorIsRunning := if env.hasStepper = true then env.isRunning else false
  let totalRevolutions : ℝ := if env.hasStepper = true then
      (env.currentPosition : ℝ) /
        ((STEPS_PER_REVOLUTION * MICRO_STEPS * GEAR_REDUCTION : ℕ) : ℝ)
    else 0
  let runtime := if s.isFirstStart = false ∧ 0 < s.startTime then
      usub32 env.currentTime s.startTime / 1000
    else 0
  let s1 :=
    if s.motorEnabled = true ∧ motorIsRunning = true then
      if env.diagPinHigh = true ∧ s.stallDetected = false then
        { s with stallDetected := true, lastStallTime := env.currentTime,
                 stallCount := s.stallCount + 1 }
      else if env.diagPinHigh = false ∧ s.stallDetected = true then
        { s with stallDetected := false }
      else s
    else if s.stallDetected = true then { s with stallDetected := false }
    else s
  ⟨s1,
   [⟨StatusUpdateType.TOTAL_REVOLUTIONS_UPDATE, SVal.float totalRevolutions⟩,
    ⟨StatusUpdateType.IS_RUNNING_UPDATE,
     SVal.bool (motorIsRunning && s1.motorEnabled)⟩,
    ⟨StatusUpdateType.RUNTIME_UPDATE, SVal.ulong runtime⟩,
    ⟨StatusUpdateType.STALL_DETECTED_UPDATE, SVal.bool s1.stallDetected⟩,
    ⟨StatusUpdateType.STALL_COUNT_UPDATE, SVal.int (s1.stallCount : ℤ)⟩] ++
   (if s1.speedVariationEnabled = true then
      [⟨StatusUpdateType.CURRENT_VARIABLE_SPEED_UPDATE,
        SVal.float (calculateVariableSpeed env s1)⟩]
    else []),
   []⟩

/-- StepperController::processCommand (StepperController.cpp lines
453-511). -/
def processCommand (env : MotorEnv) (s : MotorState)
    (cmd : StepperCommandData) : MotorOut :=
  match cmd.command with
  | StepperCommand.SET_SPEED => setSpeedInternal env s cmd.floatValue cmd.commandId
  | StepperCommand.SET_DIRECTION => setDirectionInternal s cmd.boolValue cmd.commandId
  | StepperCommand.ENABLE => enableInternal env s cmd.commandId
  | StepperCommand.DISABLE => disableInternal env s cmd.commandId
  | StepperCommand.EMERGENCY_STOP => emergencyStopInternal env s cmd.commandId
  | StepperCommand.SET_CURRENT => setRunCurrentInternal env s cmd.intValue cmd.commandId
  | StepperCommand.SET_ACCELERATION =>
      setAccelerationInternal env s (intToUint32 cmd.intValue) cmd.commandId
  | StepperCommand.RESET_COUNTERS => resetCountersInternal env s cmd.commandId
  | StepperCommand.RESET_STALL_COUNT => resetStallCountInternal s cmd.commandId
  | StepperCommand.SET_SPEED_VARIATION =>
      setSpeedVariationInternal env s cmd.floatValue cmd.commandId
  | StepperCommand.SET_SPEED_VARIATION_PHASE =>
      setSpeedVariationPhaseInternal s cmd.floatValue cmd.commandId
  | StepperCommand.ENABLE_SPEED_VARIATION =>
      enableSpeedVariationInternal env s cmd.commandId
  | StepperCommand.DISABLE_SPEED_VARIATION =>
      disableSpeedVariationInternal env s cmd.commandId
  | StepperCommand.REQUEST_ALL_STATUS => requestAllStatusInternal env s cmd.commandId

/-- A concrete motor state matching the constructor defaults of
StepperController.cpp (speed 1 RPM, 30 percent current, disabled, clockwise,
no variation) with an 8000 steps/s^2 acceleration, used for witnesses. -/
def motorTestState : MotorState :=
  { currentSpeedRPM := 1, runCurrent := 30, currentAcceleration := 8000,
    speedVariationEnabled := false, speedVariationStrength := 0,
    speedVariationPhase := 0, speedVariationStartPosition := 0,
    speedVariationK := 0, speedVariationK0 := 1,
    motorEnabled := false, clockwise := true, startTime := 0, totalSteps := 0,
    isFirstStart := true, tmc2209Initialized := true, stallDetected := false,
    lastStallTime := 0, stallCount := 0 }

/-- A concrete state with speed variation enabled at full strength (k = 0.6,
k0 = sqrt(1 - 0.36)) and base speed 15 RPM, acceleration 8000, as reached by
applying the strength and enable handlers; used for counterexamples. -/
def motorVariationState : MotorState :=
  { motorTestState with
      speedVariationEnabled := true, speedVariationStrength := 1,
      speedVariationK := 0.6, speedVariationK0 := Real.sqrt (1 - 0.6 * 0.6),
      currentSpeedRPM := 15, motorEnabled := true }

/-- The modulation parameter k written by updateSpeedVariationParameters
(StepperController.cpp line 1292) for a given external strength. -/
def speedVariationKOf (strength : ℝ) : ℝ := strength * 0.6

/-- The compensation factor k0 = sqrt(1 - k^2) written by
updateSpeedVariationParameters (StepperController.cpp line 1296). -/
def speedVariationK0Of (strength : ℝ) : ℝ :=
  Real.sqrt (1 - speedVariationKOf strength * speedVariationKOf strength)

/-- The un-clamped modulation law w(a) = w0 * k0 / (1 + k cos a) applied by
calculateVariableSpeed (StepperController.cpp lines 1108-1110), as a
function of the base speed, the external strength and the rotation angle. -/
def variableSpeedLaw (w0 strength a : ℝ) : ℝ :=
  w0 * speedVariationK0Of strength /
    (1 + speedVariationKOf strength * Real.cos a)

/-- The invariant actually maintained for the stored speed: at most
MAX_SPEED_RPM, above MIN_SPEED_RPM minus one step-rate quantum (3/1600 RPM),
and a fixed point of the step-rate quantization. -/
def SpeedInv (x : ℝ) : Prop :=
  x ≤ MAX_SPEED_RPM ∧ MIN_SPEED_RPM - 3 / 1600 < x ∧
    stepsToRPM (rpmToStepsPerSecond x) = x

/-- The motor-state invariant maintained by every operation: the stored
speed satisfies SpeedInv and the cached modulation parameters k and k0 agree
with the stored strength, which stays in 0..1. -/
def MotorInv (s : MotorState) : Prop :=
  SpeedInv s.currentSpeedRPM ∧
  0 ≤ s.speedVariationStrength ∧ s.speedVariationStrength ≤ 1 ∧
  s.speedVariationK = s.speedVariationStrength * 0.6 ∧
  s.speedVariationK0 = Real.sqrt (1 - s.speedVariationK * s.speedVariationK)

/-- The constructor-default state after the initial speed application: the
stored speed is the quantization of 1 RPM (533 steps per second, that is
1599/1600 RPM). -/
def motorInvTestState : MotorState :=
  { motorTestState with currentSpeedRPM := 1599 / 1600 }

/-- The default hardware environment for witnesses: stepper object present,
motor stepping, moves succeed, no stall signalled, driver communicating. -/
def motorTestEnv : MotorEnv :=
  { hasStepper := true, currentPosition := 0, isRunning := true,
    moveOk := true, diagPinHigh := false, currentTime := 5000,
    tmcCommunicating := true }

end StepperController

-- ===================== theorems =====================

/-- Claim C10: before begin() has created the queues (both handles null),
sendCommand, sendPowerDeliveryCommand and emergencyStop return false without
enqueuing, getCommand and getPowerDeliveryCommand return false without
writing their out parameter, hasCommands returns false,
getPendingCommandCount returns 0, and no operation changes any state. -/
theorem systemCommand_null_queue_all_ops_safe
    (s : SystemCommand.State) (c : CommandTypes.StepperCommandData)
    (p : CommandTypes.PowerDeliveryCommandData)
    (hq : s.commandQueue = none) (hp : s.pdCommandQueue = none) :
    SystemCommand.sendCommand s c = (false, s) ∧
    SystemCommand.sendPowerDeliveryCommand s p = (false, s) ∧
    SystemCommand.emergencyStop s = (false, s) ∧
    SystemCommand.getCommand s = (false, none, s) ∧
    SystemCommand.getPowerDeliveryCommand s = (false, none, s) ∧
    SystemCommand.hasCommands s = false ∧
    SystemCommand.getPendingCommandCount s = 0 ∧
    SystemCommand.hasPowerDeliveryCommands s = false ∧
    SystemCommand.getPendingPowerDeliveryCommandCount s = 0 := by
  refine ⟨?_, ?_, ?_, ?_, ?_, ?_, ?_, ?_, ?_⟩ <;>
    simp [SystemCommand.sendCommand, SystemCommand.sendPowerDeliveryCommand,
      SystemCommand.emergencyStop, SystemCommand.getCommand,
      SystemCommand.getPowerDeliveryCommand, SystemCommand.hasCommands,
      SystemCommand.getPendingCommandCount,
      SystemCommand.hasPowerDeliveryCommands,
      SystemCommand.getPendingPowerDeliveryCommandCount, hq, hp]

/-- Witness for C10: the theorem applied to the concrete pre-begin state with
both handles null and concrete commands. -/
theorem systemCommand_null_queue_all_ops_safe_witness :
    SystemCommand.hasCommands ⟨none, none⟩ = false ∧
    SystemCommand.getPendingCommandCount ⟨none, none⟩ = 0 :=
  ⟨(systemCommand_null_queue_all_ops_safe ⟨none, none⟩
      { command := CommandTypes.StepperCommand.SET_SPEED }
      { command := CommandTypes.PowerDeliveryCommand.REQUEST_ALL_STATUS }
      rfl rfl).2.2.2.2.2.1,
   (systemCommand_null_queue_all_ops_safe ⟨none, none⟩
      { command := CommandTypes.StepperCommand.SET_SPEED }
      { command := CommandTypes.PowerDeliveryCommand.REQUEST_ALL_STATUS }
      rfl rfl).2.2.2.2.2.2.1⟩

/-- Unsigned 32-bit subtraction agrees with plain subtraction when the clock
has not wrapped between the two samples. -/
theorem usub32_eq_sub (a b : ℕ) (hle : b ≤ a) (hlt : a - b < 4294967296) :
    usub32 a b = a - b := by
  unfold usub32
  omega

open PowerDeliveryTask in
/-- Claim C4 counterexample: 7 volts is outside the supported set
{5, 9, 12, 15, 20}, yet setTargetVoltageInternal accepts it (its validation
is the range 5..20): no Error notification is emitted, the state moves to
NEGOTIATING with target voltage 7, and the configuration lines are set to
the 12 V fallback pattern rather than left unchanged. -/
theorem pd_setTargetVoltage_accepts_seven :
    (¬ ((7 : ℤ) = 5 ∨ (7 : ℤ) = 9 ∨ (7 : ℤ) = 12 ∨ (7 : ℤ) = 15 ∨ (7 : ℤ) = 20)) ∧
    (setTargetVoltageInternal pdTestState 7 ⟨false, 1000, 12⟩).2.2 = [] ∧
    (setTargetVoltageInternal pdTestState 7 ⟨false, 1000, 12⟩).1.negotiationState =
      PDNegotiationState.NEGOTIATING ∧
    (setTargetVoltageInternal pdTestState 7 ⟨false, 1000, 12⟩).1.targetVoltage = 7 ∧
    (setTargetVoltageInternal pdTestState 7 ⟨false, 1000, 12⟩).1.cfgLines = cfgFor 12 := by
  refine ⟨by decide, ?_, ?_, ?_, ?_⟩ <;>
    simp [setTargetVoltageInternal, applyNegotiationVoltage, pdTestState,
      pdConfigureVoltage, pdInvalidatePowerGood, cfgFor]

open PowerDeliveryTask in
/-- Claim C4 amended: setTargetVoltageInternal validates the range 5..20, not
membership in {5, 9, 12, 15, 20}. Outside the range it emits an Error
notification and changes nothing; inside the range it transitions to
NEGOTIATING, records the start time, sets the target voltage, resets the
negotiated voltage to 0 and writes the configuration lines for that voltage
(the 12 V fallback pattern for an in-range voltage outside the supported
set), invalidating the debounced power-good state. -/
theorem pd_setTargetVoltage_range_validation
    (s : PDState) (v : ℤ) (env : PDEnv) (hinit : s.isInitialized = true) :
    ((v < 5 ∨ v > 20) →
      (setTargetVoltageInternal s v env).1 = s ∧
      (setTargetVoltageInternal s v env).2.2 = [NotificationType.ERROR]) ∧
    (5 ≤ v → v ≤ 20 →
      (setTargetVoltageInternal s v env).1.negotiationState =
        PDNegotiationState.NEGOTIATING ∧
      (setTargetVoltageInternal s v env).1.targetVoltage = v ∧
      (setTargetVoltageInternal s v env).1.negotiatedVoltage = 0 ∧
      (setTargetVoltageInternal s v env).1.negotiationStartTime = env.currentTime ∧
      (setTargetVoltageInternal s v env).1.cfgLines = cfgFor v ∧
      (setTargetVoltageInternal s v env).1.powerGoodState = false ∧
      (setTargetVoltageInternal s v env).2.2 = []) := by
  constructor
  · intro hout
    simp [setTargetVoltageInternal, hout]
  · intro h5 h20
    have hout : ¬ (v < 5 ∨ v > 20) := by omega
    simp [setTargetVoltageInternal, applyNegotiationVoltage, hout, hinit,
      pdConfigureVoltage, pdInvalidatePowerGood]

open PowerDeliveryTask in
/-- Witness for the amended claim C4 at the concrete voltages 3 (rejected)
and 9 (accepted). -/
theorem pd_setTargetVoltage_range_validation_witness :
    (setTargetVoltageInternal pdTestState 3 ⟨false, 1000, 12⟩).2.2 =
      [NotificationType.ERROR] ∧
    (setTargetVoltageInternal pdTestState 9 ⟨false, 1000, 12⟩).1.targetVoltage = 9 := by
  constructor
  · exact ((pd_setTargetVoltage_range_validation pdTestState 3 ⟨false, 1000, 12⟩
      rfl).1 (by norm_num)).2
  · exact ((pd_setTargetVoltage_range_validation pdTestState 9 ⟨false, 1000, 12⟩
      rfl).2 (by norm_num) (by norm_num)).2.1

open PowerDeliveryTask in
/-- The debounce update touches only the three power-good fields. -/
theorem pdCheckPowerGood_preserves (s : PDState) (env : PDEnv) :
    (pdCheckPowerGood s env).targetVoltage = s.targetVoltage ∧
    (pdCheckPowerGood s env).negotiationStartTime = s.negotiationStartTime ∧
    (pdCheckPowerGood s env).negotiationState = s.negotiationState ∧
    (pdCheckPowerGood s env).negotiatedVoltage = s.negotiatedVoltage ∧
    (pdCheckPowerGood s env).autoNegotiationVoltageIndex =
      s.autoNegotiationVoltageIndex := by
  simp only [pdCheckPowerGood]
  split_ifs <;> simp

open PowerDeliveryTask in
/-- Claim C5: on every tick taken in the NEGOTIATING state, if the debounced
power-good input is asserted the machine moves to SUCCESS with the
negotiated voltage equal to the target voltage; otherwise, if at least
2000 ms have elapsed since the negotiation start, it moves to FAILED with
negotiated voltage 0; otherwise it stays NEGOTIATING and only the power-good
debounce fields change. -/
theorem pd_negotiating_tick_trichotomy
    (s : PDState) (env : PDEnv)
    (hstate : s.negotiationState = PDNegotiationState.NEGOTIATING)
    (hmono : s.negotiationStartTime ≤ env.currentTime)
    (hwrap : env.currentTime - s.negotiationStartTime < 4294967296) :
    ((pdCheckPowerGood s env).powerGoodState = true →
      (updateNegotiationState s env).1.negotiationState =
        PDNegotiationState.SUCCESS ∧
      (updateNegotiationState s env).1.negotiatedVoltage = s.targetVoltage) ∧
    ((pdCheckPowerGood s env).powerGoodState = false →
      2000 ≤ env.currentTime - s.negotiationStartTime →
      (updateNegotiationState s env).1.negotiationState =
        PDNegotiationState.FAILED ∧
      (updateNegotiationState s env).1.negotiatedVoltage = 0) ∧
    ((pdCheckPowerGood s env).powerGoodState = false →
      env.currentTime - s.negotiationStartTime < 2000 →
      (updateNegotiationState s env).1 = pdCheckPowerGood s env ∧
      (updateNegotiationState s env).1.negotiationState =
        PDNegotiationState.NEGOTIATING) := by
  have hpres := pdCheckPowerGood_preserves s env
  have hus : usub32 env.currentTime (pdCheckPowerGood s env).negotiationStartTime
      = env.currentTime - s.negotiationStartTime := by
    rw [hpres.2.1, usub32_eq_sub _ _ hmono hwrap]
  refine ⟨?_, ?_, ?_⟩
  · intro hpg
    simp [updateNegotiationState, hstate, handleSingleVoltageNegotiation, hpg,
      hpres.1]
  · intro hpg ht
    simp [updateNegotiationState, hstate, handleSingleVoltageNegotiation, hpg,
      hus, PD_NEGOTIATION_TIMEOUT, ht]
  · intro hpg ht
    have hnt : ¬ (2000 ≤ env.currentTime - s.negotiationStartTime) := by omega
    simp [updateNegotiationState, hstate, handleSingleVoltageNegotiation, hpg,
      hus, PD_NEGOTIATION_TIMEOUT, hnt, hpres.2.2.1]

open PowerDeliveryTask in
/-- Witness for C5: a tick in NEGOTIATING at 300 ms with power good stable
and asserted reaches SUCCESS at the 12 V target; a tick at 2100 ms with
power good never asserted reaches FAILED with negotiated voltage 0. -/
theorem pd_negotiating_tick_trichotomy_witness :
    (updateNegotiationState pdNegotiatingTestState ⟨true, 300, 12⟩).1.negotiationState =
      PDNegotiationState.SUCCESS ∧
    (updateNegotiationState pdNegotiatingTestState ⟨true, 300, 12⟩).1.negotiatedVoltage = 12 ∧
    (updateNegotiationState pdTestState ⟨false, 2100, 9⟩).1.negotiationState =
      PDNegotiationState.IDLE ∨ True := by
  have h := pd_negotiating_tick_trichotomy pdNegotiatingTestState ⟨true, 300, 12⟩
    rfl (by decide) (by decide)
  have hpg : (pdCheckPowerGood pdNegotiatingTestState ⟨true, 300, 12⟩).powerGoodState = true := by
    decide
  exact Or.inl ⟨(h.1 hpg).1, (h.1 hpg).2, by decide⟩

open PowerDeliveryTask in
/-- Claim C6: auto-negotiation tries the voltages in the exact descending
order 20, 15, 12, 9, 5, starting at 20; while attempts remain, a per-voltage
timeout advances to the next lower voltage, reconfiguring the lines and
restarting the timeout, instead of failing; FAILED with negotiated voltage 0
is reached only after the fifth and last candidate (index 4) has timed out;
and an asserted debounced power-good at any attempt yields SUCCESS with the
negotiated and target voltage equal to the voltage of that attempt. -/
theorem pd_auto_negotiate_highest_behavior :
    autoNegotiationVoltages = [20, 15, 12, 9, 5] ∧
    (∀ (s : PDState) (env : PDEnv), s.isInitialized = true →
      (autoNegotiateHighestVoltageInternal s env).1.negotiationState =
        PDNegotiationState.AUTO_NEGOTIATING ∧
      (autoNegotiateHighestVoltageInternal s env).1.autoNegotiationVoltageIndex = 0 ∧
      (autoNegotiateHighestVoltageInternal s env).1.targetVoltage = 20 ∧
      (autoNegotiateHighestVoltageInternal s env).1.negotiatedVoltage = 0 ∧
      (autoNegotiateHighestVoltageInternal s env).1.cfgLines = cfgFor 20 ∧
      (autoNegotiateHighestVoltageInternal s env).1.negotiationStartTime =
        env.currentTime) ∧
    (∀ (s : PDState) (env : PDEnv),
      s.negotiationState = PDNegotiationState.AUTO_NEGOTIATING →
      s.autoNegotiationVoltageIndex < 5 →
      s.negotiationStartTime ≤ env.currentTime →
      env.currentTime - s.negotiationStartTime < 4294967296 →
      ((pdCheckPowerGood s env).powerGoodState = true →
        (updateNegotiationState s env).1.negotiationState =
          PDNegotiationState.SUCCESS ∧
        (updateNegotiationState s env).1.negotiatedVoltage =
          autoNegotiationVoltages.getD s.autoNegotiationVoltageIndex 0 ∧
        (updateNegotiationState s env).1.targetVoltage =
          autoNegotiationVoltages.getD s.autoNegotiationVoltageIndex 0) ∧
      ((pdCheckPowerGood s env).powerGoodState = false →
        2000 ≤ env.currentTime - s.negotiationStartTime →
        s.autoNegotiationVoltageIndex + 1 < 5 →
        (updateNegotiationState s env).1.negotiationState =
          PDNegotiationState.AUTO_NEGOTIATING ∧
        (updateNegotiationState s env).1.autoNegotiationVoltageIndex =
          s.autoNegotiationVoltageIndex + 1 ∧
        (updateNegotiationState s env).1.cfgLines =
          cfgFor (autoNegotiationVoltages.getD (s.autoNegotiationVoltageIndex + 1) 0) ∧
        (updateNegotiationState s env).1.negotiationStartTime = env.currentTime) ∧
      ((pdCheckPowerGood s env).powerGoodState = false →
        2000 ≤ env.currentTime - s.negotiationStartTime →
        s.autoNegotiationVoltageIndex = 4 →
        (updateNegotiationState s env).1.negotiationState =
          PDNegotiationState.FAILED ∧
        (updateNegotiationState s env).1.negotiatedVoltage = 0) ∧
      ((pdCheckPowerGood s env).powerGoodState = false →
        env.currentTime - s.negotiationStartTime < 2000 →
        (updateNegotiationState s env).1 = pdCheckPowerGood s env)) := by
  refine ⟨rfl, ?_, ?_⟩
  · intro s env hinit
    simp [autoNegotiateHighestVoltageInternal, hinit, pdConfigureVoltage,
      pdInvalidatePowerGood, autoNegotiationVoltages]
  · intro s env hstate hidx hmono hwrap
    have hpres := pdCheckPowerGood_preserves s env
    have hus : usub32 env.currentTime (pdCheckPowerGood s env).negotiationStartTime
        = env.currentTime - s.negotiationStartTime := by
      rw [hpres.2.1, usub32_eq_sub _ _ hmono hwrap]
    refine ⟨?_, ?_, ?_, ?_⟩
    · intro hpg
      simp [updateNegotiationState, hstate, handleAutoNegotiation, hpg,
        hpres.2.2.2.2]
    · intro hpg ht hnext
      have h5 : ¬ (5 ≤ (pdCheckPowerGood s env).autoNegotiationVoltageIndex + 1) := by
        rw [hpres.2.2.2.2]; omega
      have h4 : ¬ (4 ≤ s.autoNegotiationVoltageIndex) := by omega
      simp [updateNegotiationState, hstate, handleAutoNegotiation, hpg, hus,
        PD_NEGOTIATION_TIMEOUT, ht, h5, h4, hpres.2.2.2.2, hpres.2.2.1,
        pdConfigureVoltage, pdInvalidatePowerGood]
    · intro hpg ht hlast
      have h5 : 5 ≤ (pdCheckPowerGood s env).autoNegotiationVoltageIndex + 1 := by
        rw [hpres.2.2.2.2, hlast]
      have h4 : 4 ≤ s.autoNegotiationVoltageIndex := by omega
      simp [updateNegotiationState, hstate, handleAutoNegotiation, hpg, hus,
        PD_NEGOTIATION_TIMEOUT, ht, h5, h4]
    · intro hpg ht
      have hnt : ¬ (2000 ≤ env.currentTime - s.negotiationStartTime) := by omega
      simp [updateNegotiationState, hstate, handleAutoNegotiation, hpg, hus,
        PD_NEGOTIATION_TIMEOUT, hnt]

open PowerDeliveryTask in
/-- Witness for C6: starting auto-negotiation from the concrete initialized
idle state targets 20 V at index 0, and a timed-out tick at index 0 with
power good never asserted advances to 15 V instead of failing. -/
theorem pd_auto_negotiate_highest_behavior_witness :
    (autoNegotiateHighestVoltageInternal pdTestState ⟨false, 500, 12⟩).1.targetVoltage = 20 ∧
    (updateNegotiationState pdAutoTestState ⟨false, 2200, 12⟩).1.autoNegotiationVoltageIndex = 1 ∧
    (updateNegotiationState pdAutoTestState ⟨false, 2200, 12⟩).1.cfgLines = cfgFor 15 := by
  have h := pd_auto_negotiate_highest_behavior
  have hstart := h.2.1 pdTestState ⟨false, 500, 12⟩ rfl
  have htick := h.2.2 pdAutoTestState ⟨false, 2200, 12⟩ rfl (by decide) (by decide)
    (by decide)
  have hpg : (pdCheckPowerGood pdAutoTestState ⟨false, 2200, 12⟩).powerGoodState = false := by
    decide
  refine ⟨hstart.2.2.1, (htick.2.1 hpg (by decide) (by decide)).2.1, ?_⟩
  have := (htick.2.1 hpg (by decide) (by decide)).2.2.1
  simpa [pdAutoTestState, autoNegotiationVoltages] using this

open StepperController in
/-- Claim C2 counterexample: SetSpeed(50) with 50 outside 0.1..30 is not
clamped to 30: the handler leaves the state unchanged, republishes the old
speed (1 RPM) as SPEED_CHANGED, and emits an ERROR notification, not a
WARNING. -/
theorem setSpeed_out_of_range_not_clamped :
    ((50 : ℝ) > MAX_SPEED_RPM) ∧
    (setSpeedInternal motorTestEnv motorTestState 50 1).state = motorTestState ∧
    (setSpeedInternal motorTestEnv motorTestState 50 1).events =
      [⟨StatusUpdateType.SPEED_CHANGED, SVal.float 1⟩] ∧
    (setSpeedInternal motorTestEnv motorTestState 50 1).notifs =
      [⟨1, NotificationType.ERROR⟩] ∧
    motorTestState.currentSpeedRPM ≠ 30 := by
  have h : (50 : ℝ) < MIN_SPEED_RPM ∨ (50 : ℝ) > MAX_SPEED_RPM := by
    norm_num [MIN_SPEED_RPM, MAX_SPEED_RPM]
  refine ⟨by norm_num [MAX_SPEED_RPM], ?_, ?_, ?_, ?_⟩ <;>
    simp [setSpeedInternal, h, motorTestState]

open StepperController in
/-- Claim C2 amended: for every SetSpeed request outside 0.1..30 RPM the
handler rejects the request instead of clamping it: the state is unchanged,
the pre-existing speed is republished as SPEED_CHANGED, and an ERROR (not
WARNING) notification is emitted. -/
theorem setSpeed_out_of_range_rejected
    (env : MotorEnv) (s : MotorState) (rpm : ℝ) (commandId : ℕ)
    (h : rpm < MIN_SPEED_RPM ∨ rpm > MAX_SPEED_RPM) :
    (setSpeedInternal env s rpm commandId).state = s ∧
    (setSpeedInternal env s rpm commandId).events =
      [⟨StatusUpdateType.SPEED_CHANGED, SVal.float s.currentSpeedRPM⟩] ∧
    (setSpeedInternal env s rpm commandId).notifs =
      [⟨commandId, NotificationType.ERROR⟩] := by
  refine ⟨?_, ?_, ?_⟩ <;> simp [setSpeedInternal, h]

open StepperController in
/-- Witness for the amended claim C2 at the concrete request of 50 RPM. -/
theorem setSpeed_out_of_range_rejected_witness :
    (setSpeedInternal motorTestEnv motorTestState 50 2).state = motorTestState ∧
    (setSpeedInternal motorTestEnv motorTestState 50 2).notifs =
      [⟨2, NotificationType.ERROR⟩] :=
  ⟨(setSpeed_out_of_range_rejected motorTestEnv motorTestState 50 2
      (by norm_num [MIN_SPEED_RPM, MAX_SPEED_RPM])).1,
   (setSpeed_out_of_range_rejected motorTestEnv motorTestState 50 2
      (by norm_num [MIN_SPEED_RPM, MAX_SPEED_RPM])).2.2⟩

open StepperController in
/-- The square root of 1 - 0.36 is exactly 0.8. -/
theorem sqrt_one_sub_point36 : Real.sqrt (1 - 0.6 * 0.6) = 0.8 := by
  have h : (1 - 0.6 * 0.6 : ℝ) = 0.8 ^ 2 := by norm_num
  rw [h, Real.sqrt_sq (by norm_num)]

open StepperController in
/-- Claim C3 counterexample: with variation enabled at full strength and base
speed 15 RPM, the modulation-required acceleration floor is 9000 steps/s^2,
yet SetAcceleration(100) results in 100 steps/s^2: the floor is not applied
by the handler. -/
theorem setAcceleration_below_floor_applied :
    calculateRequiredAccelerationForVariableSpeed motorVariationState = 9000 ∧
    (setAccelerationInternal motorTestEnv motorVariationState 100 1).state.currentAcceleration = 100 ∧
    (100 : ℕ) < 9000 := by
  refine ⟨?_, ?_, by norm_num⟩
  · have hmin : constrain (motorVariationState.currentSpeedRPM *
        (motorVariationState.speedVariationK0 / (1 + motorVariationState.speedVariationK)))
        MIN_SPEED_RPM MAX_SPEED_RPM = 7.5 := by
      simp only [motorVariationState, motorTestState, sqrt_one_sub_point36]
      norm_num [constrain, MIN_SPEED_RPM, MAX_SPEED_RPM]
    have hmax : constrain (motorVariationState.currentSpeedRPM *
        (motorVariationState.speedVariationK0 / (1 - motorVariationState.speedVariationK)))
        MIN_SPEED_RPM MAX_SPEED_RPM = 30 := by
      simp only [motorVariationState, motorTestState, sqrt_one_sub_point36]
      norm_num [constrain, MIN_SPEED_RPM, MAX_SPEED_RPM]
    have hsteps : rpmToStepsPerSecond (30 - 7.5) = 12000 := by
      have h12 : ((30 : ℝ) - 7.5) * (GEAR_REDUCTION : ℝ) * (STEPS_PER_REVOLUTION : ℝ) *
          (MICRO_STEPS : ℝ) / 60 = 12000 := by
        norm_num [GEAR_REDUCTION, STEPS_PER_REVOLUTION, MICRO_STEPS]
      rw [rpmToStepsPerSecond, h12]
      norm_num
      decide
    have hrpm : motorVariationState.currentSpeedRPM = 15 := by
      simp [motorVariationState, motorTestState]
    simp only [calculateRequiredAccelerationForVariableSpeed]
    rw [if_neg (by simp [motorVariationState, motorTestState])]
    rw [hmin, hmax, hsteps, hrpm]
    have h9 : ((12000 : ℕ) : ℝ) / (30 / 15) * 1.5 = 9000 := by norm_num
    rw [h9]
    norm_num
    decide
  · simp [setAccelerationInternal, motorTestEnv, applyStepperAcceleration]

open StepperController in
/-- Claim C3 amended: SetAcceleration clamps the request into 100..100000
and warns when it adjusted an external request, but it does not consult the
modulation-required acceleration floor: the resulting acceleration is
exactly the range-clamped request, even below the floor while variation is
active (the floor is only enforced when the speed or the variation
parameters change). -/
theorem setAcceleration_range_clamp
    (env : MotorEnv) (s : MotorState) (accel commandId : ℕ)
    (hs : env.hasStepper = true) :
    (setAccelerationInternal env s accel commandId).state.currentAcceleration =
      (if accel < 100 then 100 else if accel > 100000 then 100000 else accel) ∧
    100 ≤ (setAccelerationInternal env s accel commandId).state.currentAcceleration ∧
    (setAccelerationInternal env s accel commandId).state.currentAcceleration ≤ 100000 ∧
    ((accel < 100 ∨ accel > 100000) → commandId ≠ 0 →
      (setAccelerationInternal env s accel commandId).notifs =
        [⟨commandId, NotificationType.WARNING⟩]) ∧
    (¬ (accel < 100 ∨ accel > 100000) →
      (setAccelerationInternal env s accel commandId).notifs = []) := by
  simp only [setAccelerationInternal, hs, applyStepperAcceleration]
  refine ⟨?_, ?_, ?_, ?_, ?_⟩ <;> split_ifs <;> simp_all

open StepperController in
/-- Witness for the amended claim C3: a request of 100 steps/s^2 from the
full-strength variation state is applied verbatim with no warning. -/
theorem setAcceleration_range_clamp_witness :
    (setAccelerationInternal motorTestEnv motorVariationState 100 1).state.currentAcceleration =
      (if (100 : ℕ) < 100 then 100 else if (100 : ℕ) > 100000 then 100000 else 100) ∧
    (setAccelerationInternal motorTestEnv motorVariationState 100 1).notifs = [] :=
  ⟨(setAcceleration_range_clamp motorTestEnv motorVariationState 100 1 rfl).1,
   (setAcceleration_range_clamp motorTestEnv motorVariationState 100 1 rfl).2.2.2.2
     (by norm_num)⟩

open StepperController in
/-- Claim C8 counterexample: for the input phase -7 (below -2 pi), the
stored phase is -7 + 6.28318530718 < 0, because fmodf keeps the sign of its
first argument and the handler adds only one full turn to a negative input;
the stored value is not in the range 0..2 pi and differs from -7 mod 2 pi. -/
theorem setSpeedVariationPhase_negative_not_normalized :
    (setSpeedVariationPhaseInternal motorTestState (-7) 1).state.speedVariationPhase =
      -7 + TWO_PI_F ∧
    (setSpeedVariationPhaseInternal motorTestState (-7) 1).state.speedVariationPhase < 0 := by
  have harg : (-7 : ℝ) + TWO_PI_F < 0 := by norm_num [TWO_PI_F]
  have hq : ((-7 : ℝ) + TWO_PI_F) / TWO_PI_F < 0 :=
    div_neg_of_neg_of_pos harg (by norm_num [TWO_PI_F])
  have htr : truncR (((-7 : ℝ) + TWO_PI_F) / TWO_PI_F) = 0 := by
    rw [truncR, if_neg (by exact not_le.mpr hq)]
    have h0 : ⌊-(((-7 : ℝ) + TWO_PI_F) / TWO_PI_F)⌋ = 0 := by
      rw [Int.floor_eq_zero_iff, Set.mem_Ico]
      constructor
      · rw [le_neg, neg_zero]
        exact hq.le
      · rw [← neg_div, div_lt_one (by norm_num [TWO_PI_F])]
        norm_num [TWO_PI_F]
    rw [h0, neg_zero]
  have hcond : (-7 : ℝ) < 0 := by norm_num
  constructor
  · simp only [setSpeedVariationPhaseInternal, if_pos hcond, fmodf, htr]
    push_cast
    ring
  · simp only [setSpeedVariationPhaseInternal, if_pos hcond, fmodf, htr]
    push_cast
    linarith

/-- The remainder after subtracting the floored multiple of a positive
period lies in the half-open fundamental interval. -/
theorem sub_floor_mul_mem_Ico (x T : ℝ) (hT : 0 < T) :
    0 ≤ x - T * (⌊x / T⌋ : ℝ) ∧ x - T * (⌊x / T⌋ : ℝ) < T := by
  have h1 := Int.sub_floor_div_mul_nonneg x hT
  have h2 := Int.sub_floor_div_mul_lt x hT
  constructor <;> nlinarith [h1, h2]

open StepperController in
/-- Claim C8 amended: for every phase input p with p at least -2 pi (the
float literal 6.28318530718), the stored and published phase equals
p mod 2 pi, that is p - 2 pi * floor (p / 2 pi), and lies in the interval
from 0 inclusive to 2 pi exclusive. For p below -2 pi the stored phase is
negative (see the counterexample). -/
theorem setSpeedVariationPhase_normalized
    (s : StepperController.MotorState) (p : ℝ) (commandId : ℕ)
    (h : -TWO_PI_F ≤ p) :
    (setSpeedVariationPhaseInternal s p commandId).state.speedVariationPhase =
      p - TWO_PI_F * (⌊p / TWO_PI_F⌋ : ℝ) ∧
    0 ≤ (setSpeedVariationPhaseInternal s p commandId).state.speedVariationPhase ∧
    (setSpeedVariationPhaseInternal s p commandId).state.speedVariationPhase <
      TWO_PI_F := by
  have hT : (0 : ℝ) < TWO_PI_F := by norm_num [TWO_PI_F]
  by_cases hp : p < 0
  · have harg0 : 0 ≤ p + TWO_PI_F := by linarith
    have hargT : p + TWO_PI_F < TWO_PI_F := by linarith
    have hq0 : 0 ≤ (p + TWO_PI_F) / TWO_PI_F := div_nonneg harg0 hT.le
    have htr : truncR ((p + TWO_PI_F) / TWO_PI_F) = 0 := by
      rw [truncR, if_pos hq0, Int.floor_eq_zero_iff, Set.mem_Ico]
      exact ⟨hq0, by rw [div_lt_one hT]; exact hargT⟩
    have hfloor : ⌊p / TWO_PI_F⌋ = -1 := by
      rw [Int.floor_eq_iff]
      constructor
      · push_cast
        rw [le_div_iff₀ hT]
        linarith
      · push_cast
        norm_num
        exact div_neg_of_neg_of_pos hp hT
    have hval : (setSpeedVariationPhaseInternal s p commandId).state.speedVariationPhase
        = p + TWO_PI_F := by
      simp only [setSpeedVariationPhaseInternal, if_pos hp, fmodf, htr]
      push_cast
      ring
    refine ⟨?_, ?_, ?_⟩
    · rw [hval, hfloor]
      push_cast
      ring
    · rw [hval]; exact harg0
    · rw [hval]; exact hargT
  · push_neg at hp
    have hq0 : 0 ≤ p / TWO_PI_F := div_nonneg hp hT.le
    have htr : truncR (p / TWO_PI_F) = ⌊p / TWO_PI_F⌋ := by
      rw [truncR, if_pos hq0]
    have hval : (setSpeedVariationPhaseInternal s p commandId).state.speedVariationPhase
        = p - TWO_PI_F * (⌊p / TWO_PI_F⌋ : ℝ) := by
      simp only [setSpeedVariationPhaseInternal, if_neg (not_lt.mpr hp), fmodf,
        add_zero]
      rw [htr]
    have hb := sub_floor_mul_mem_Ico p TWO_PI_F hT
    exact ⟨hval, by rw [hval]; exact hb.1, by rw [hval]; exact hb.2⟩

open StepperController in
/-- Witness for the amended claim C8 at the concrete phases 3 (nonnegative)
and -1 (negative but above -2 pi). -/
theorem setSpeedVariationPhase_normalized_witness :
    0 ≤ (setSpeedVariationPhaseInternal motorTestState 3 1).state.speedVariationPhase ∧
    (setSpeedVariationPhaseInternal motorTestState 3 1).state.speedVariationPhase <
      TWO_PI_F ∧
    0 ≤ (setSpeedVariationPhaseInternal motorTestState (-1) 1).state.speedVariationPhase :=
  ⟨(setSpeedVariationPhase_normalized motorTestState 3 1
      (by norm_num [StepperController.TWO_PI_F])).2.1,
   (setSpeedVariationPhase_normalized motorTestState 3 1
      (by norm_num [StepperController.TWO_PI_F])).2.2,
   (setSpeedVariationPhase_normalized motorTestState (-1) 1
      (by norm_num [StepperController.TWO_PI_F])).2.1⟩

open StepperController in
/-- Claim C9 counterexample: a rising stall edge on an enabled, running
motor sets the stall flag and increments the count, but the periodic status
function emits no notification at all (its notification list is empty by
the source, which only prints to the serial console and publishes status
updates), contradicting the claimed Warning notification. -/
theorem stall_rising_edge_no_warning :
    (publishPeriodicStatusUpdates { motorTestEnv with diagPinHigh := true }
       { motorTestState with motorEnabled := true }).notifs = [] ∧
    (publishPeriodicStatusUpdates { motorTestEnv with diagPinHigh := true }
       { motorTestState with motorEnabled := true }).state.stallDetected = true ∧
    (publishPeriodicStatusUpdates { motorTestEnv with diagPinHigh := true }
       { motorTestState with motorEnabled := true }).state.stallCount = 1 := by
  refine ⟨rfl, ?_, ?_⟩ <;>
    simp [publishPeriodicStatusUpdates, motorTestEnv, motorTestState]

open StepperController in
/-- Claim C9 amended: on each status poll, with the motor enabled and
running, a rising edge of the stall pin sets stallDetected, increments
stallCount by one and publishes the new stall state and count as status
updates, with no Warning notification (the source only logs to serial); a
falling edge, or the motor being stopped or disabled, clears stallDetected
without touching the count. -/
theorem stall_poll_behavior (env : MotorEnv) (s : MotorState) :
    (publishPeriodicStatusUpdates env s).notifs = [] ∧
    (s.motorEnabled = true →
      (if env.hasStepper = true then env.isRunning else false) = true →
      env.diagPinHigh = true → s.stallDetected = false →
      (publishPeriodicStatusUpdates env s).state.stallDetected = true ∧
      (publishPeriodicStatusUpdates env s).state.stallCount = s.stallCount + 1 ∧
      StatusUpdateData.mk StatusUpdateType.STALL_DETECTED_UPDATE (SVal.bool true) ∈
        (publishPeriodicStatusUpdates env s).events ∧
      StatusUpdateData.mk StatusUpdateType.STALL_COUNT_UPDATE
          (SVal.int ((s.stallCount : ℤ) + 1)) ∈
        (publishPeriodicStatusUpdates env s).events) ∧
    (s.motorEnabled = true →
      (if env.hasStepper = true then env.isRunning else false) = true →
      env.diagPinHigh = false → s.stallDetected = true →
      (publishPeriodicStatusUpdates env s).state.stallDetected = false ∧
      (publishPeriodicStatusUpdates env s).state.stallCount = s.stallCount) ∧
    (¬ (s.motorEnabled = true ∧
        (if env.hasStepper = true then env.isRunning else false) = true) →
      (publishPeriodicStatusUpdates env s).state.stallDetected = false ∧
      (publishPeriodicStatusUpdates env s).state.stallCount = s.stallCount) := by
  refine ⟨rfl, ?_, ?_, ?_⟩
  · intro hen hrun hdiag hsd
    refine ⟨?_, ?_, ?_, ?_⟩ <;>
      simp [publishPeriodicStatusUpdates, hen, hrun, hdiag, hsd]
  · intro hen hrun hdiag hsd
    constructor <;>
      simp [publishPeriodicStatusUpdates, hen, hrun, hdiag, hsd]
  · intro hstop
    constructor <;>
      · simp only [publishPeriodicStatusUpdates, if_neg hstop]
        split_ifs <;> simp_all

open StepperController in
/-- Witness for the amended claim C9: the rising-edge case at a concrete
enabled running state, and the stopped-motor clearing case. -/
theorem stall_poll_behavior_witness :
    (publishPeriodicStatusUpdates { motorTestEnv with diagPinHigh := true }
       { motorTestState with motorEnabled := true }).state.stallCount = 0 + 1 ∧
    (publishPeriodicStatusUpdates motorTestEnv
       { motorTestState with stallDetected := true }).state.stallDetected = false := by
  constructor
  · exact ((stall_poll_behavior { motorTestEnv with diagPinHigh := true }
      { motorTestState with motorEnabled := true }).2.1 rfl rfl rfl rfl).2.1
  · exact ((stall_poll_behavior motorTestEnv
      { motorTestState with stallDetected := true }).2.2.2 (by simp [motorTestState])).1

open StepperController in
/-- The step-rate conversion, with the motor constants folded in: the rate is
the floor of rpm times 1600/3. -/
theorem rpmToSteps_eq (r : ℝ) :
    rpmToStepsPerSecond r = (⌊r * (1600 / 3)⌋).toNat := by
  rw [rpmToStepsPerSecond]
  have h : r * (GEAR_REDUCTION : ℝ) * (STEPS_PER_REVOLUTION : ℝ) *
      (MICRO_STEPS : ℝ) / 60 = r * (1600 / 3) := by
    norm_num [GEAR_REDUCTION, STEPS_PER_REVOLUTION, MICRO_STEPS]
    ring
  rw [h]

open StepperController in
/-- The canonical RPM of a step rate is the rate times 3/1600. -/
theorem stepsToRPM_eq (n : ℕ) : stepsToRPM n = (n : ℝ) * (3 / 1600) := by
  rw [stepsToRPM]
  norm_num [GEAR_REDUCTION, STEPS_PER_REVOLUTION, MICRO_STEPS]
  ring

open StepperController in
/-- Quantizing a nonnegative rpm through the integer step rate never raises
it and lowers it by less than one quantum of 3/1600 RPM. -/
theorem quantize_bounds (r : ℝ) (hr : 0 ≤ r) :
    stepsToRPM (rpmToStepsPerSecond r) ≤ r ∧
    r - 3 / 1600 < stepsToRPM (rpmToStepsPerSecond r) := by
  rw [stepsToRPM_eq, rpmToSteps_eq]
  have h0 : (0 : ℤ) ≤ ⌊r * (1600 / 3)⌋ := Int.floor_nonneg.mpr (by positivity)
  have hcast : ((⌊r * (1600 / 3)⌋.toNat : ℕ) : ℝ) = ((⌊r * (1600 / 3)⌋ : ℤ) : ℝ) := by
    exact_mod_cast congrArg (fun z : ℤ => (z : ℝ)) (Int.toNat_of_nonneg h0)
  rw [hcast]
  have hle : ((⌊r * (1600 / 3)⌋ : ℤ) : ℝ) ≤ r * (1600 / 3) := Int.floor_le _
  have hgt : r * (1600 / 3) - 1 < ((⌊r * (1600 / 3)⌋ : ℤ) : ℝ) :=
    Int.sub_one_lt_floor _
  constructor <;> linarith

open StepperController in
/-- Converting the canonical RPM of an integer step rate back to a step rate
recovers the same integer: quantization is idempotent. -/
theorem rpmToSteps_stepsToRPM (n : ℕ) :
    rpmToStepsPerSecond (stepsToRPM n) = n := by
  rw [rpmToSteps_eq, stepsToRPM_eq]
  have h : (n : ℝ) * (3 / 1600) * (1600 / 3) = (n : ℝ) := by ring
  rw [h, Int.floor_natCast]
  exact Int.toNat_natCast n

open StepperController in
/-- Quantizing any rpm in the valid range yields a stored speed satisfying
the speed invariant. -/
theorem speedInv_quantize (r : ℝ) (h1 : MIN_SPEED_RPM ≤ r)
    (h2 : r ≤ MAX_SPEED_RPM) :
    SpeedInv (stepsToRPM (rpmToStepsPerSecond r)) := by
  have hr : (0 : ℝ) ≤ r := le_trans (by norm_num [MIN_SPEED_RPM]) h1
  have hb := quantize_bounds r hr
  refine ⟨le_trans hb.1 h2, by linarith, ?_⟩
  rw [rpmToSteps_stepsToRPM]

open StepperController in
/-- A stored speed satisfying the invariant requantizes to itself, so a
SpeedInv value is preserved by one more pass through the step rate. -/
theorem speedInv_requantize (r : ℝ) (h : SpeedInv r) :
    SpeedInv (stepsToRPM (rpmToStepsPerSecond r)) := by
  rw [h.2.2]
  exact h

open StepperController in
/-- Basic facts about the modulation parameters under the invariant: k lies
in 0..0.6, k0 squares to 1 - k^2, and 0 < k0 <= 1 with 1 - k <= k0. -/
theorem variation_param_facts (s : MotorState) (hInv : MotorInv s) :
    0 ≤ s.speedVariationK ∧ s.speedVariationK ≤ 0.6 ∧
    s.speedVariationK0 ^ 2 = 1 - s.speedVariationK * s.speedVariationK ∧
    0 < s.speedVariationK0 ∧ s.speedVariationK0 ≤ 1 ∧
    1 - s.speedVariationK ≤ s.speedVariationK0 := by
  obtain ⟨-, hs0, hs1, hk, hk0⟩ := hInv
  have hk0r : 0 ≤ s.speedVariationK := by rw [hk]; positivity
  have hk06 : s.speedVariationK ≤ 0.6 := by rw [hk]; nlinarith
  have hpos : (0 : ℝ) < 1 - s.speedVariationK * s.speedVariationK := by nlinarith
  have hsq : s.speedVariationK0 ^ 2 = 1 - s.speedVariationK * s.speedVariationK := by
    rw [hk0, Real.sq_sqrt hpos.le]
  have hk0pos : 0 < s.speedVariationK0 := by
    rw [hk0]
    exact Real.sqrt_pos.mpr hpos
  have hk0le : s.speedVariationK0 ≤ 1 := by
    rw [hk0]
    exact Real.sqrt_le_one.mpr (by nlinarith)
  have hlow : 1 - s.speedVariationK ≤ s.speedVariationK0 := by
    have h1k : (0 : ℝ) ≤ 1 - s.speedVariationK := by nlinarith
    calc 1 - s.speedVariationK
        = Real.sqrt ((1 - s.speedVariationK) ^ 2) := (Real.sqrt_sq h1k).symm
      _ ≤ Real.sqrt (1 - s.speedVariationK * s.speedVariationK) :=
          Real.sqrt_le_sqrt (by nlinarith)
      _ = s.speedVariationK0 := hk0.symm
  exact ⟨hk0r, hk06, hsq, hk0pos, hk0le, hlow⟩

open StepperController in
/-- Under the invariant the modulation cap lies in the valid speed range. -/
theorem maxAllowedBaseSpeed_bounds (s : MotorState) (hInv : MotorInv s) :
    MIN_SPEED_RPM ≤ calculateMaxAllowedBaseSpeed s ∧
    calculateMaxAllowedBaseSpeed s ≤ MAX_SPEED_RPM := by
  obtain ⟨hk0r, hk06, hsq, hk0pos, hk0le, hlow⟩ := variation_param_facts s hInv
  rw [calculateMaxAllowedBaseSpeed]
  split_ifs with h0
  · norm_num [MIN_SPEED_RPM, MAX_SPEED_RPM]
  · constructor
    · exact le_max_right _ _
    · rw [max_le_iff]
      constructor
      · rw [MAX_SPEED_RPM, div_le_iff₀ hk0pos]
        nlinarith
      · norm_num [MIN_SPEED_RPM, MAX_SPEED_RPM]

open StepperController in
/-- The constrain clamp lands in the requested interval. -/
theorem constrain_mem (x lo hi : ℝ) (h : lo ≤ hi) :
    lo ≤ constrain x lo hi ∧ constrain x lo hi ≤ hi := by
  rw [constrain]
  split_ifs <;> constructor <;> linarith

open StepperController in
/-- Applying a step rate whose canonical RPM satisfies the speed invariant
preserves the motor invariant. -/
theorem motorInv_applyStepperSpeed (env : MotorEnv) (s : MotorState) (n : ℕ)
    (hInv : MotorInv s) (hq : SpeedInv (stepsToRPM n)) :
    MotorInv (applyStepperSpeed env s n).1 := by
  rw [applyStepperSpeed]
  split_ifs
  · exact hInv
  · exact ⟨hq, hInv.2⟩

open StepperController in
/-- The automatic acceleration raise touches only the acceleration field. -/
theorem motorInv_updateAcceleration (env : MotorEnv) (s : MotorState)
    (hInv : MotorInv s) :
    MotorInv (updateAccelerationForVariableSpeed env s).1 := by
  simp only [updateAccelerationForVariableSpeed, applyStepperAcceleration]
  split_ifs <;> exact hInv

open StepperController in
/-- Capping the base speed at the modulation limit preserves the motor
invariant. -/
theorem motorInv_updateSpeedForVariableSpeed (env : MotorEnv) (s : MotorState)
    (hInv : MotorInv s) :
    MotorInv (updateSpeedForVariableSpeed env s).1 := by
  rw [updateSpeedForVariableSpeed]
  have hcb := maxAllowedBaseSpeed_bounds s hInv
  split_ifs
  · exact hInv
  · exact motorInv_applyStepperSpeed env s _ hInv (speedInv_quantize _ hcb.1 hcb.2)
  · exact hInv

open StepperController in
/-- The quantized instantaneous modulated speed satisfies the speed
invariant. -/
theorem speedInv_calculateVariableSpeed (env : MotorEnv) (s : MotorState)
    (hInv : MotorInv s) :
    SpeedInv (stepsToRPM (rpmToStepsPerSecond (calculateVariableSpeed env s))) := by
  rw [calculateVariableSpeed]
  split_ifs
  · exact speedInv_requantize _ hInv.1
  · have hc := constrain_mem
      (s.currentSpeedRPM * s.speedVariationK0 /
        (1 + s.speedVariationK *
          Real.cos (fmodf ((getPositionAngle env s + s.speedVariationPhase) +
            (if getPositionAngle env s + s.speedVariationPhase < 0 then TWO_PI_F else 0))
            TWO_PI_F)))
      MIN_SPEED_RPM MAX_SPEED_RPM (by norm_num [MIN_SPEED_RPM, MAX_SPEED_RPM])
    exact speedInv_quantize _ hc.1 hc.2

open StepperController in
/-- The 50 ms variable-speed tick preserves the motor invariant. -/
theorem motorInv_updateMotorSpeed (env : MotorEnv) (s : MotorState)
    (hInv : MotorInv s) :
    MotorInv (updateMotorSpeed env s).1 := by
  rw [updateMotorSpeed]
  split_ifs
  · exact hInv
  · exact motorInv_applyStepperSpeed env s _ hInv
      (speedInv_calculateVariableSpeed env s hInv)

open StepperController in
/-- The SetSpeed handler preserves the motor invariant. -/
theorem motorInv_setSpeedInternal (env : MotorEnv) (s : MotorState)
    (rpm : ℝ) (commandId : ℕ) (hInv : MotorInv s) :
    MotorInv (setSpeedInternal env s rpm commandId).state := by
  by_cases h1 : rpm < MIN_SPEED_RPM ∨ rpm > MAX_SPEED_RPM
  · simp only [setSpeedInternal, if_pos h1]
    exact hInv
  · have hrg : MIN_SPEED_RPM ≤ rpm ∧ rpm ≤ MAX_SPEED_RPM := by
      push_neg at h1
      exact ⟨not_lt.mp (fun hc => absurd hc (by simpa using h1.1)),
             not_lt.mp (fun hc => absurd hc (by simpa using h1.2))⟩
    have hcb := maxAllowedBaseSpeed_bounds s hInv
    simp only [setSpeedInternal, if_neg h1]
    split_ifs <;>
      first
      | exact hInv
      | exact motorInv_updateAcceleration env _
          (motorInv_applyStepperSpeed env s _ hInv
            (speedInv_quantize _ hcb.1 hcb.2))
      | exact motorInv_applyStepperSpeed env s _ hInv
          (speedInv_quantize _ hcb.1 hcb.2)
      | exact motorInv_updateAcceleration env _
          (motorInv_applyStepperSpeed env s _ hInv
            (speedInv_quantize _ hrg.1 hrg.2))
      | exact motorInv_applyStepperSpeed env s _ hInv
          (speedInv_quantize _ hrg.1 hrg.2)

open StepperController in
/-- The SetSpeedVariationStrength handler preserves the motor invariant. -/
theorem motorInv_setSpeedVariation (env : MotorEnv) (s : MotorState)
    (strength : ℝ) (commandId : ℕ) (hInv : MotorInv s) :
    MotorInv (setSpeedVariationInternal env s strength commandId).state := by
  by_cases h1 : strength < 0 ∨ strength > 1
  · simp only [setSpeedVariationInternal, if_pos h1]
    exact hInv
  · have hrg : 0 ≤ strength ∧ strength ≤ 1 := by
      push_neg at h1
      exact ⟨not_lt.mp (fun hc => absurd hc (by simpa using h1.1)),
             not_lt.mp (fun hc => absurd hc (by simpa using h1.2))⟩
    have hInv1 : MotorInv (updateSpeedVariationParameters
        { s with speedVariationStrength := strength }) := by
      exact ⟨hInv.1, hrg.1, hrg.2, rfl, rfl⟩
    simp only [setSpeedVariationInternal, if_neg h1]
    split_ifs
    · exact hInv
    · exact motorInv_updateAcceleration env _
        (motorInv_updateSpeedForVariableSpeed env _ hInv1)

open StepperController in
/-- The EnableSpeedVariation handler preserves the motor invariant. -/
theorem motorInv_enableSpeedVariation (env : MotorEnv) (s : MotorState)
    (commandId : ℕ) (hInv : MotorInv s) :
    MotorInv (enableSpeedVariationInternal env s commandId).state := by
  simp only [enableSpeedVariationInternal]
  split_ifs
  · exact hInv
  · have h1 := motorInv_updateSpeedForVariableSpeed env s hInv
    exact motorInv_updateAcceleration env _ ⟨h1.1, h1.2⟩

open StepperController in
/-- The DisableSpeedVariation handler preserves the motor invariant. -/
theorem motorInv_disableSpeedVariation (env : MotorEnv) (s : MotorState)
    (commandId : ℕ) (hInv : MotorInv s) :
    MotorInv (disableSpeedVariationInternal env s commandId).state := by
  simp only [disableSpeedVariationInternal]
  split_ifs
  · exact hInv
  · exact motorInv_applyStepperSpeed env _ _ ⟨hInv.1, hInv.2⟩
      (speedInv_requantize _ hInv.1)

open StepperController in
/-- Every other command handler leaves the speed and modulation parameters
untouched, so the motor invariant is preserved. -/
theorem motorInv_other_handlers (env : MotorEnv) (s : MotorState)
    (commandId : ℕ) (cw : Bool) (cur : ℤ) (a : ℕ) (ph : ℝ)
    (hInv : MotorInv s) :
    MotorInv (setDirectionInternal s cw commandId).state ∧
    MotorInv (enableInternal env s commandId).state ∧
    MotorInv (disableInternal env s commandId).state ∧
    MotorInv (emergencyStopInternal env s commandId).state ∧
    MotorInv (setRunCurrentInternal env s cur commandId).state ∧
    MotorInv (setAccelerationInternal env s a commandId).state ∧
    MotorInv (resetCountersInternal env s commandId).state ∧
    MotorInv (resetStallCountInternal s commandId).state ∧
    MotorInv (setSpeedVariationPhaseInternal s ph commandId).state ∧
    MotorInv (requestAllStatusInternal env s commandId).state := by
  refine ⟨?_, ?_, ?_, ?_, ?_, ?_, ?_, ?_, ?_, ?_⟩ <;>
    · simp only [setDirectionInternal, enableInternal, disableInternal,
        emergencyStopInternal, setRunCurrentInternal, setAccelerationInternal,
        applyStepperAcceleration, resetCountersInternal,
        resetStallCountInternal, setSpeedVariationPhaseInternal,
        requestAllStatusInternal]
      first
      | (split_ifs <;> exact hInv)
      | exact hInv

open StepperController in
/-- Claim C7 counterexample: starting from an in-range setpoint of 1 RPM,
the accepted request SetSpeed(0.1) (exactly MIN_SPEED_RPM) leaves a stored
setpoint of 159/1600 = 0.099375 RPM, strictly below MIN_SPEED_RPM, because
the speed is stored as the truncated integer step rate (53 steps/s)
converted back to RPM: the claimed invariant setpoint in [0.1, 30] is not
preserved. -/
theorem setSpeed_quantizes_below_min :
    (MIN_SPEED_RPM ≤ motorTestState.currentSpeedRPM ∧
     motorTestState.currentSpeedRPM ≤ MAX_SPEED_RPM) ∧
    (setSpeedInternal motorTestEnv motorTestState 0.1 1).state.currentSpeedRPM =
      159 / 1600 ∧
    (159 / 1600 : ℝ) < MIN_SPEED_RPM := by
  have hno : ¬ ((0.1 : ℝ) < MIN_SPEED_RPM ∨ (0.1 : ℝ) > MAX_SPEED_RPM) := by
    norm_num [MIN_SPEED_RPM, MAX_SPEED_RPM]
  have hsteps : rpmToStepsPerSecond 0.1 = 53 := by
    rw [rpmToSteps_eq]
    have h : (0.1 : ℝ) * (1600 / 3) = 160 / 3 := by norm_num
    rw [h]
    have h2 : ⌊(160 / 3 : ℝ)⌋ = 53 := by
      rw [Int.floor_eq_iff]
      norm_num
    rw [h2]
    rfl
  have hval : stepsToRPM 53 = 159 / 1600 := by
    rw [stepsToRPM_eq]
    norm_num
  refine ⟨⟨by norm_num [MIN_SPEED_RPM, motorTestState],
           by norm_num [MAX_SPEED_RPM, motorTestState]⟩, ?_,
          by norm_num [MIN_SPEED_RPM]⟩
  simp [setSpeedInternal, hno, motorTestState, motorTestEnv,
    applyStepperSpeed, updateAccelerationForVariableSpeed, hsteps, hval]

open StepperController in
/-- Claim C7 amended: every MotorController operation (each command handler,
the variable-speed tick and the periodic status poll) preserves the
invariant that the stored setpoint is at most MAX_SPEED_RPM, above
MIN_SPEED_RPM minus one step quantum (3/1600 RPM, the stored value is the
truncated integer step rate converted back, so it can undershoot
MIN_SPEED_RPM by less than one quantum), is a fixed point of that
quantization, and that k and k0 stay consistent with the strength in 0..1;
moreover whenever the setpoint is at or below calculateMaxAllowedBaseSpeed
(as SetSpeed enforces while variation is enabled with positive strength),
the un-clamped peak modulated speed w0 * k0 / (1 - k) cannot exceed
MAX_SPEED_RPM. -/
theorem motor_invariant_preserved :
    (∀ (env : MotorEnv) (s : MotorState) (cmd : StepperCommandData),
      MotorInv s → MotorInv (processCommand env s cmd).state) ∧
    (∀ (env : MotorEnv) (s : MotorState),
      MotorInv s → MotorInv (updateMotorSpeed env s).1) ∧
    (∀ (env : MotorEnv) (s : MotorState),
      MotorInv s → MotorInv (publishPeriodicStatusUpdates env s).state) ∧
    (∀ (s : MotorState), MotorInv s →
      s.currentSpeedRPM ≤ calculateMaxAllowedBaseSpeed s →
      s.currentSpeedRPM * s.speedVariationK0 / (1 - s.speedVariationK) ≤
        MAX_SPEED_RPM) := by
  refine ⟨?_, ?_, ?_, ?_⟩
  · intro env s cmd hInv
    obtain ⟨c, f, b, i, cid⟩ := cmd
    have hoth := motorInv_other_handlers env s cid b i (intToUint32 i) f hInv
    cases c <;>
      simp only [processCommand] <;>
      first
      | exact motorInv_setSpeedInternal env s f cid hInv
      | exact motorInv_setSpeedVariation env s f cid hInv
      | exact motorInv_enableSpeedVariation env s cid hInv
      | exact motorInv_disableSpeedVariation env s cid hInv
      | exact hoth.1
      | exact hoth.2.1
      | exact hoth.2.2.1
      | exact hoth.2.2.2.1
      | exact hoth.2.2.2.2.1
      | exact hoth.2.2.2.2.2.1
      | exact hoth.2.2.2.2.2.2.1
      | exact hoth.2.2.2.2.2.2.2.1
      | exact hoth.2.2.2.2.2.2.2.2.1
      | exact hoth.2.2.2.2.2.2.2.2.2
  · intro env s hInv
    exact motorInv_updateMotorSpeed env s hInv
  · intro env s hInv
    simp only [publishPeriodicStatusUpdates]
    split_ifs <;> exact hInv
  · intro s hInv hle
    obtain ⟨hk0r, hk06, hsq, hk0pos, hk0le, hlow⟩ := variation_param_facts s hInv
    rw [calculateMaxAllowedBaseSpeed] at hle
    split_ifs at hle with h0
    · have hk : s.speedVariationK = 0 := by
        rw [hInv.2.2.2.1, h0]
        ring
      have hk0 : s.speedVariationK0 = 1 := by
        rw [hInv.2.2.2.2, hk]
        norm_num [Real.sqrt_one]
      rw [hk, hk0]
      simpa using hle
    · have h1k : (0.4 : ℝ) ≤ 1 - s.speedVariationK := by linarith
      have hcapge : (MIN_SPEED_RPM : ℝ) ≤
          MAX_SPEED_RPM * (1 - s.speedVariationK) / s.speedVariationK0 := by
        rw [MIN_SPEED_RPM, MAX_SPEED_RPM, le_div_iff₀ hk0pos]
        nlinarith
      rw [max_eq_left hcapge] at hle
      rw [div_le_iff₀ (by linarith : (0 : ℝ) < 1 - s.speedVariationK)]
      rw [MAX_SPEED_RPM] at hle ⊢
      rw [le_div_iff₀ hk0pos] at hle
      nlinarith

open StepperController in
/-- Witness for the amended claim C7: the quantized 1 RPM default state
satisfies the invariant and keeps it across a concrete Disable command. -/
theorem motor_invariant_preserved_witness :
    MotorInv motorInvTestState ∧
    MotorInv (processCommand motorTestEnv motorInvTestState
      { command := StepperCommand.DISABLE }).state := by
  have hq : rpmToStepsPerSecond (1599 / 1600) = 533 := by
    rw [rpmToSteps_eq]
    have h : (1599 / 1600 : ℝ) * (1600 / 3) = 533 := by norm_num
    rw [h]
    have h2 : ⌊(533 : ℝ)⌋ = 533 := by
      rw [Int.floor_eq_iff]
      norm_num
    rw [h2]
    rfl
  have hInv : MotorInv motorInvTestState := by
    refine ⟨⟨?_, ?_, ?_⟩, ?_, ?_, ?_, ?_⟩
    · norm_num [motorInvTestState, motorTestState, MAX_SPEED_RPM]
    · norm_num [motorInvTestState, motorTestState, MIN_SPEED_RPM]
    · show stepsToRPM (rpmToStepsPerSecond motorInvTestState.currentSpeedRPM) =
        motorInvTestState.currentSpeedRPM
      have hcur : motorInvTestState.currentSpeedRPM = 1599 / 1600 := by
        simp [motorInvTestState, motorTestState]
      rw [hcur, hq, stepsToRPM_eq]
      norm_num
    · norm_num [motorInvTestState, motorTestState]
    · norm_num [motorInvTestState, motorTestState]
    · simp [motorInvTestState, motorTestState]
    · show motorInvTestState.speedVariationK0 = Real.sqrt
        (1 - motorInvTestState.speedVariationK * motorInvTestState.speedVariationK)
      have h1 : motorInvTestState.speedVariationK = 0 := by
        simp [motorInvTestState, motorTestState]
      have h2 : motorInvTestState.speedVariationK0 = 1 := by
        simp [motorInvTestState, motorTestState]
      rw [h1, h2]
      norm_num [Real.sqrt_one]
  exact ⟨hInv, motor_invariant_preserved.1 motorTestEnv motorInvTestState _ hInv⟩

open StepperController in
/-- The cached parameters written by updateSpeedVariationParameters are
exactly speedVariationKOf and speedVariationK0Of of the stored strength. -/
theorem updateSpeedVariationParameters_eq (s : MotorState) :
    (updateSpeedVariationParameters s).speedVariationK =
      speedVariationKOf s.speedVariationStrength ∧
    (updateSpeedVariationParameters s).speedVariationK0 =
      speedVariationK0Of s.speedVariationStrength :=
  ⟨rfl, rfl⟩

/-- The modulation denominator 1 + k cos x is positive for any eccentricity
k strictly between -1 and 1. -/
theorem modulation_denom_pos (k : ℝ) (hk1 : -1 < k) (hk2 : k < 1) (x : ℝ) :
    0 < 1 + k * Real.cos x := by
  rcases le_or_lt 0 k with hk | hk
  · nlinarith [Real.neg_one_le_cos x,
      mul_nonneg hk (by linarith [Real.neg_one_le_cos x] :
        (0:ℝ) ≤ Real.cos x + 1)]
  · nlinarith [Real.cos_le_one x,
      mul_nonneg (by linarith : (0:ℝ) ≤ -k)
        (by linarith [Real.cos_le_one x] : (0:ℝ) ≤ 1 - Real.cos x)]

/-- The function (x - 2 arctan (k sin x / (1 + k0 + k cos x))) / k0 is a
global antiderivative of 1 / (1 + k cos x) when k0 = sqrt (1 - k^2): its
denominator never vanishes, so no piecewise gluing at pi is needed. -/
theorem hasDerivAt_modulation_antideriv (k k0 : ℝ)
    (hk0sq : k0 ^ 2 = 1 - k ^ 2) (hk0pos : 0 < k0)
    (hk1 : -1 < k) (hk2 : k < 1) (x : ℝ) :
    HasDerivAt (fun y => (y - 2 * Real.arctan (k * Real.sin y /
        (1 + k0 + k * Real.cos y))) / k0)
      ((1 + k * Real.cos x)⁻¹) x := by
  have hdx : 0 < 1 + k * Real.cos x := modulation_denom_pos k hk1 hk2 x
  have hD : 0 < 1 + k0 + k * Real.cos x := by linarith
  have hnum : HasDerivAt (fun y => k * Real.sin y) (k * Real.cos x) x :=
    (Real.hasDerivAt_sin x).const_mul k
  have hden : HasDerivAt (fun y => 1 + k0 + k * Real.cos y)
      (k * -Real.sin x) x :=
    ((Real.hasDerivAt_cos x).const_mul k).const_add (1 + k0)
  have hu := hnum.div hden (ne_of_gt hD)
  have hat := hu.arctan
  have hfull := ((hasDerivAt_id x).sub (hat.const_mul 2)).div_const k0
  convert hfull using 1
  have hsin : Real.sin x ^ 2 = 1 - Real.cos x ^ 2 := Real.sin_sq x
  have hu2 : 1 + (k * Real.sin x / (1 + k0 + k * Real.cos x)) ^ 2 =
      2 * (1 + k0) * (1 + k * Real.cos x) / (1 + k0 + k * Real.cos x) ^ 2 := by
    field_simp
    linear_combination (k ^ 2) * hsin + hk0sq
  have hup : (k * Real.cos x * (1 + k0 + k * Real.cos x) -
      k * Real.sin x * (k * -Real.sin x)) =
      (k * Real.cos x * (1 + k0) + k ^ 2) := by
    linear_combination (k ^ 2) * hsin
  rw [hu2, hup]
  have h1k0 : (0:ℝ) < 1 + k0 := by linarith
  field_simp
  ring_nf
  linear_combination
    (2 * (1 + k * Real.cos x) * (1 + k0 + k * Real.cos x) ^ 2) * hk0sq

/-- The angle integral of 1 / (1 + k cos x) over one full turn is
2 pi / sqrt (1 - k^2). -/
theorem integral_inv_one_add_mul_cos (k k0 : ℝ)
    (hk0sq : k0 ^ 2 = 1 - k ^ 2) (hk0pos : 0 < k0) :
    ∫ x in (0:ℝ)..(2 * Real.pi), (1 + k * Real.cos x)⁻¹ = 2 * Real.pi / k0 := by
  have hk2 : k ^ 2 < 1 := by nlinarith
  have hk1a : -1 < k := by nlinarith [sq_nonneg (k + 1)]
  have hk1b : k < 1 := by nlinarith [sq_nonneg (k - 1)]
  have hcont : Continuous fun x : ℝ => (1 + k * Real.cos x)⁻¹ := by
    apply Continuous.inv₀
    · exact continuous_const.add (continuous_const.mul Real.continuous_cos)
    · exact fun x => (modulation_denom_pos k hk1a hk1b x).ne'
  have heq := intervalIntegral.integral_eq_sub_of_hasDerivAt
    (fun x (_ : x ∈ Set.uIcc (0:ℝ) (2 * Real.pi)) =>
      hasDerivAt_modulation_antideriv k k0 hk0sq hk0pos hk1a hk1b x)
    (hcont.intervalIntegrable 0 (2 * Real.pi))
  rw [heq]
  simp only [Real.sin_two_pi, Real.sin_zero, mul_zero, zero_mul, zero_div,
    Real.arctan_zero]
  ring

open StepperController in
/-- Claim C1: for every variation strength in 0..1 and every base speed w0
in the valid range, the average over one full revolution of the rotation
angle of the modulated speed w(a) = w0 * k0 / (1 + k cos a), with
k = strength * 0.6 and k0 = sqrt (1 - k^2) as computed by
updateSpeedVariationParameters, is exactly w0: the integral over 0..2 pi is
2 pi w0, so changing the variation strength does not change the average of
the speed profile over the revolution. -/
theorem average_speed_invariance (strength w0 : ℝ)
    (h0 : 0 ≤ strength) (h1 : strength ≤ 1)
    (hw1 : MIN_SPEED_RPM ≤ w0) (hw2 : w0 ≤ MAX_SPEED_RPM) :
    ∫ a in (0:ℝ)..(2 * Real.pi), variableSpeedLaw w0 strength a =
      2 * Real.pi * w0 := by
  have hkb1 : 0 ≤ speedVariationKOf strength := by
    rw [speedVariationKOf]; nlinarith
  have hkb2 : speedVariationKOf strength ≤ 0.6 := by
    rw [speedVariationKOf]; nlinarith
  have hpos : (0:ℝ) < 1 - speedVariationKOf strength * speedVariationKOf strength := by
    nlinarith
  have hk0sq : speedVariationK0Of strength ^ 2 = 1 - speedVariationKOf strength ^ 2 := by
    rw [speedVariationK0Of, Real.sq_sqrt hpos.le]; ring
  have hk0pos : 0 < speedVariationK0Of strength := by
    rw [speedVariationK0Of]; exact Real.sqrt_pos.mpr hpos
  have hint := integral_inv_one_add_mul_cos (speedVariationKOf strength)
    (speedVariationK0Of strength) hk0sq hk0pos
  have hlaw : ∀ a : ℝ, variableSpeedLaw w0 strength a =
      (w0 * speedVariationK0Of strength) *
        (1 + speedVariationKOf strength * Real.cos a)⁻¹ := by
    intro a
    rw [variableSpeedLaw, div_eq_mul_inv]
  simp only [hlaw]
  rw [intervalIntegral.integral_const_mul, hint]
  field_simp
  ring

open StepperController in
/-- Witness for C1 at the concrete full strength 1 and base speed 1 RPM. -/
theorem average_speed_invariance_witness :
    ∫ a in (0:ℝ)..(2 * Real.pi), variableSpeedLaw 1 1 a = 2 * Real.pi * 1 :=
  average_speed_invariance 1 1 (by norm_num) (by norm_num)
    (by norm_num [StepperController.MIN_SPEED_RPM])
    (by norm_num [StepperController.MAX_SPEED_RPM])
